import Mathlib

/-!
# JWT authentication / authorization middleware

A shallow embedding of `backend/middleware/authMiddleware.js`.

* JavaScript values are the inductive type `JVal`; an object is the list of its
  own properties, read with the later binding winning (as in an object literal).
* The `jsonwebtoken` library and the logger are external: the library is a
  parameter `Jwt` (its `sign` and `verify`), the logger is an event of the trace.
* A middleware run is a pure function from the request to an `Outcome`: the
  value of `req.user` afterwards and the ordered trace of everything the
  middleware did (log lines, `res.status`, `res.json`, library calls, `next`).
* The entity services of `backend/services/` run over a Sequelize model given as
  the parameter `Orm`, with the store passed explicitly.
-/

namespace AuthMiddleware

/-! ## JavaScript values -/

/-- JavaScript values that occur in the middleware: token payloads, option
objects, response bodies and log metadata. Numbers are the integer-valued ones. -/
inductive JVal where
  | undefined : JVal
  | null : JVal
  | bool (b : Bool) : JVal
  | num (n : Int) : JVal
  | str (s : String) : JVal
  | arr (items : List JVal) : JVal
  | obj (props : List (String × JVal)) : JVal
  deriving Inhabited

/-- An object given by its own enumerable properties, in insertion order. -/
abbrev Props := List (String × JVal)

/-- JavaScript truthiness (`ToBoolean`). -/
def JVal.truthy : JVal → Bool
  | .undefined => false
  | .null => false
  | .bool b => b
  | .num n => n != 0
  | .str s => s != ""
  | .arr _ => true
  | .obj _ => true

/-- Own-property lookup on a property list; a later binding of a key overrides
an earlier one. `none` means the key is absent. -/
def getProp : Props → String → Option JVal
  | [], _ => none
  | (k, v) :: rest, key =>
    match getProp rest key with
    | some w => some w
    | none => if k = key then some v else none

/-- The expression `v.key` for a value `v` that is neither `undefined` nor
`null`: the own property of an object, `undefined` when there is none (none of
the prototypes involved defines the keys used here). -/
def JVal.member (v : JVal) (key : String) : JVal :=
  match v with
  | .obj props => (getProp props key).getD .undefined
  | _ => .undefined

/-- The step `CreateDataProperty(target, k, v)`: overwrite in place when the key
exists, append otherwise. -/
def setProp : Props → String → JVal → Props
  | [], key, v => [(key, v)]
  | (k, w) :: rest, key, v =>
    if k = key then (k, v) :: rest else (k, w) :: setProp rest key v

/-- Copying the own properties of `source` onto `target`, in order
(one `...source` element of an object literal). -/
def copyDataProperties (target source : Props) : Props :=
  source.foldl (fun acc kv => setProp acc kv.1 kv.2) target

/-- The object literal `{ ...a, ...b }`. -/
def spread2 (a b : Props) : Props :=
  copyDataProperties (copyDataProperties [] a) b

/-! ## Strings -/

/-- Splitting a character list at every occurrence of `sep`
(`String.prototype.split` with a one-character separator). -/
def splitChars (sep : Char) : List Char → List (List Char)
  | [] => [[]]
  | c :: cs =>
    if c = sep then [] :: splitChars sep cs
    else
      match splitChars sep cs with
      | [] => [[c]]
      | w :: ws => (c :: w) :: ws

/-- The call `s.split(' ')`. -/
def jsSplitSpace (s : String) : List String :=
  (splitChars ' ' s.data).map String.mk

/-! ## Collaborators -/

/-- The two operations of the `jsonwebtoken` library the service uses. An error
is represented by its `message`. `sign` returns the token or throws; `verify`
runs its callback once, with the error or with the decoded claims, and stands
for the library at the time of the call (it reads the clock for the expiry
check). -/
structure Jwt where
  sign : JVal → String → Props → Except String String
  verify : String → String → Except String JVal

/-- Logger levels used by the middleware. -/
inductive LogLevel where
  | error
  | warn
  deriving DecidableEq, Inhabited

/-- Everything a run of a service method does, in order. -/
inductive Event where
  | log (level : LogLevel) (message : String) (meta : JVal) : Event
  | status (code : Nat) : Event
  | json (body : JVal) : Event
  | verifyCall (token secret : String) : Event
  | signCall (payload : JVal) (secret : String) (options : Props) : Event
  | setUser (decoded : JVal) : Event
  | next : Event
  deriving Inhabited

/-- Is the event a call of `next`? -/
def Event.isNext : Event → Bool
  | .next => true
  | _ => false

/-- Is the event a write to the response (`res.status` or `res.json`)? -/
def Event.isResponse : Event → Bool
  | .status _ => true
  | .json _ => true
  | _ => false

/-- Is the event a call of `jwt.verify`? -/
def Event.isVerify : Event → Bool
  | .verifyCall _ _ => true
  | _ => false

/-- Is the event a call of `res.json`, which sends the response? -/
def Event.isJson : Event → Bool
  | .json _ => true
  | _ => false

/-- Is the event the assignment `req.user = decoded`? -/
def Event.isSetUser : Event → Bool
  | .setUser _ => true
  | _ => false

/-- Is the event a call of `jwt.sign`? -/
def Event.isSign : Event → Bool
  | .signCall _ _ _ => true
  | _ => false

/-! ## Configuration and service -/

/-- The object `authConfig`. -/
structure AuthConfig where
  secretKey : String
  tokenOptions : Props

/-- The module-level `authConfig`, from the value of the environment variable
`JWT_SECRET_KEY` (`none` when unset): `process.env.JWT_SECRET_KEY || 'secretkey'`. -/
def authConfig (jwtSecretKey : Option String) : AuthConfig :=
  { secretKey :=
      match jwtSecretKey with
      | some s => if s != "" then s else "secretkey"
      | none => "secretkey"
    tokenOptions := [("expiresIn", .str "1h")] }

/-- An instance of the class `AuthService`. -/
structure AuthService where
  secretKey : String
  tokenOptions : Props

/-- The constructor `new AuthService(config)`. -/
def AuthService.new (config : AuthConfig) : AuthService :=
  { secretKey := config.secretKey, tokenOptions := config.tokenOptions }

/-- The exported singleton `authService`. -/
def authService (jwtSecretKey : Option String) : AuthService :=
  AuthService.new (authConfig jwtSecretKey)

/-- The part of an Express request the middleware touches: the `authorization`
header (`none` when `req.headers['authorization']` is `undefined`) and
`req.user`. -/
structure Request where
  authorization : Option String
  user : JVal

/-- Result of running a middleware on a request. -/
structure Outcome where
  user : JVal
  trace : List Event

/-- The body `{ success: false, message, code }` of a rejection. -/
def rejection (message code : String) : JVal :=
  .obj [("success", .bool false), ("message", .str message), ("code", .str code)]

/-- The value of `authHeader && authHeader.split(' ')[1]`; `none` is
`undefined`. -/
def candidateToken (authHeader : Option String) : Option String :=
  match authHeader with
  | none => none
  | some h => if h = "" then some h else (jsSplitSpace h)[1]?

/-- The middleware returned by `authenticateToken()`, run on `req`. -/
def AuthService.authenticateToken (self : AuthService) (jwt : Jwt) (req : Request) : Outcome :=
  let authHeader := req.authorization
  let token := candidateToken authHeader
  match token with
  | none =>
    { user := req.user
      trace := [.log .error "Access denied: No token provided" .undefined,
                .status 401,
                .json (rejection "Access denied: No token provided" "TOKEN_MISSING")] }
  | some t =>
    if t = "" then
      { user := req.user
        trace := [.log .error "Access denied: No token provided" .undefined,
                  .status 401,
                  .json (rejection "Access denied: No token provided" "TOKEN_MISSING")] }
    else
      match jwt.verify t self.secretKey with
      | .error errMessage =>
        { user := req.user
          trace := [.verifyCall t self.secretKey,
                    .log .error "Invalid token" (.obj [("metadata", .obj [("error", .str errMessage)])]),
                    .status 403,
                    .json (rejection "Invalid token" "TOKEN_INVALID")] }
      | .ok decoded =>
        { user := decoded
          trace := [.verifyCall t self.secretKey, .setUser decoded, .next] }

/-- The object thrown by `throw new Error(message)`: it has a message and no
other data. -/
structure JsError where
  message : String
  deriving DecidableEq, Inhabited

/-- Result of a call of `generateToken`: the returned token or the thrown
error, and the trace. -/
structure GenOutcome where
  result : Except JsError String
  trace : List Event

/-- The method `generateToken(payload, options = {})`; `options = none` is the
omitted argument. -/
def AuthService.generateToken (self : AuthService) (jwt : Jwt) (payload : JVal)
    (options : Option Props) : GenOutcome :=
  let options := options.getD []
  let tokenOptions := spread2 self.tokenOptions options
  match jwt.sign payload self.secretKey tokenOptions with
  | .ok token =>
    { result := .ok token
      trace := [.signCall payload self.secretKey tokenOptions] }
  | .error errMessage =>
    { result := .error { message := "Failed to generate token" }
      trace := [.signCall payload self.secretKey tokenOptions,
                .log .error "Error generating token"
                  (.obj [("metadata", .obj [("error", .str errMessage)])])] }

/-- The call `roles.includes(x)` for an array of strings `roles`. -/
def rolesInclude (roles : List String) (x : JVal) : Bool :=
  match x with
  | .str s => roles.contains s
  | _ => false

/-- The middleware returned by `authorizeRoles(roles)`, run on `req`. -/
def AuthService.authorizeRoles (_self : AuthService) (roles : List String) (req : Request) :
    Outcome :=
  if !req.user.truthy || !rolesInclude roles (req.user.member "role") then
    { user := req.user
      trace := [.log .warn "Access denied: Insufficient permissions"
                  (.obj [("metadata", .obj [("user", req.user)])]),
                .status 403,
                .json (rejection "Access denied: Insufficient permissions"
                  "INSUFFICIENT_PERMISSIONS")] }
  else
    { user := req.user, trace := [.next] }

/-- The writes to the response in a run, in order. -/
def Outcome.responses (o : Outcome) : List Event :=
  o.trace.filter Event.isResponse

/-- The calls of `next` in a run. -/
def Outcome.nextCalls (o : Outcome) : List Event :=
  o.trace.filter Event.isNext

/-- The response `401 { success: false, message: "Access denied: No token
provided", code: "TOKEN_MISSING" }`. -/
def tokenMissingResponse : List Event :=
  [.status 401,
   .json (.obj [("success", .bool false),
                ("message", .str "Access denied: No token provided"),
                ("code", .str "TOKEN_MISSING")])]

/-- The response `403 { success: false, message: "Invalid token", code:
"TOKEN_INVALID" }`. -/
def tokenInvalidResponse : List Event :=
  [.status 403,
   .json (.obj [("success", .bool false), ("message", .str "Invalid token"),
                ("code", .str "TOKEN_INVALID")])]

/-! ## The specification's reading of the header -/

/-- Following the specification's words (whitespace is spaces or tabs): is the
character whitespace? -/
def isBlank (c : Char) : Bool :=
  c == ' ' || c == '\t'

/-- Following the specification's words: the segments of a character list split
on runs of whitespace, one or several characters long. The flag says that the
previous character was whitespace, so that a run counts as one delimiter. -/
def whitespaceSegmentsAux : Bool → List Char → List (List Char)
  | _, [] => [[]]
  | inRun, c :: cs =>
    if isBlank c then
      if inRun then whitespaceSegmentsAux true cs else [] :: whitespaceSegmentsAux true cs
    else
      match whitespaceSegmentsAux false cs with
      | [] => [[c]]
      | w :: ws => (c :: w) :: ws

/-- Following the specification's words: the whitespace-delimited segments of a
header. -/
def whitespaceSegments (s : String) : List String :=
  (whitespaceSegmentsAux false s.data).map String.mk

/-- Following the specification's words: "the second whitespace-delimited
segment" of the header, `none` when there is no header or no such segment. -/
def secondWhitespaceSegment (authHeader : Option String) : Option String :=
  match authHeader with
  | none => none
  | some h => (whitespaceSegments h)[1]?

/-- Whitespace occurs only as single spaces: no tab and no two adjacent spaces. -/
def singleSpaced : List Char → Bool
  | [] => true
  | c :: cs => c != '\t' && !(c == ' ' && cs.head? == some ' ') && singleSpaced cs

/-! ## The library's side of the round trip -/

/-- The decoded claims extend the payload: `decoded` has every property of
`payload` with the same value, and no key besides those of `payload`, `iat` and
`exp`. -/
def ExtendsPayload (payload decoded : Props) : Prop :=
  (∀ key v, getProp payload key = some v → getProp decoded key = some v) ∧
    (∀ key, getProp payload key = none → key ≠ "iat" → key ≠ "exp" →
      getProp decoded key = none)

/-- The round trip of the library for one signing call, verified before expiry:
when `sign` returns a token for this payload, key and options, the token is
non-empty and without a space, and `verify` under the same key, at the time of
the request, yields the payload extended by `iat`/`exp`. -/
def RoundTripsAt (jwt : Jwt) (secret : String) (payload opts : Props) : Prop :=
  ∀ token : String, jwt.sign (.obj payload) secret opts = .ok token →
    token ≠ "" ∧ ' ' ∉ token.data ∧
      ∃ decoded, jwt.verify token secret = .ok (.obj decoded) ∧ ExtendsPayload payload decoded

/-! ## A stand-in library for the concrete instances -/

/-- The claims `{ userId: 1, role: "admin", iat: 0, exp: 3600 }`. -/
def demoClaims : JVal :=
  .obj [("userId", .num 1), ("role", .str "admin"), ("iat", .num 0), ("exp", .num 3600)]

/-- A library instance for the concrete examples: every payload is signed to the
token `"h.p.s"`, which verifies under the key `"secretkey"` to `demoClaims`; the
token `"old"` is reported expired, everything else malformed. -/
def demoJwt : Jwt :=
  { sign := fun _ _ _ => .ok "h.p.s"
    verify := fun token secret =>
      if token = "h.p.s" ∧ secret = "secretkey" then .ok demoClaims
      else if token = "old" then .error "jwt expired"
      else .error "jwt malformed" }

/-- A library instance whose `sign` always throws. -/
def failingJwt (message : String) : Jwt :=
  { sign := fun _ _ _ => .error message
    verify := fun _ _ => .error "jwt malformed" }

/-! ## A small token library for the round-trip instance -/

/-- The decimal digit of a number below ten. -/
def digitChar : Nat → Char
  | 0 => '0' | 1 => '1' | 2 => '2' | 3 => '3' | 4 => '4'
  | 5 => '5' | 6 => '6' | 7 => '7' | 8 => '8' | _ => '9'

/-- The decimal digits of `n` in front of `acc`, in at most `fuel` steps. -/
def natDigitsAux : Nat → Nat → List Char → List Char
  | 0, _, acc => acc
  | fuel + 1, n, acc =>
    if n < 10 then digitChar n :: acc
    else natDigitsAux fuel (n / 10) (digitChar (n % 10) :: acc)

/-- The decimal digits of a number. -/
def natDigits (n : Nat) : List Char :=
  natDigitsAux (n + 1) n []

/-- A list of numbers in writing: each in decimal and closed by `_`. -/
def writeNats : List Nat → List Char
  | [] => []
  | n :: ns => natDigits n ++ '_' :: writeNats ns

/-- Reading one number up to its closing `_`. -/
def readNatAux : List Char → Nat → Option (Nat × List Char)
  | [], _ => none
  | c :: cs, acc =>
    if c = '_' then some (acc, cs)
    else if c.isDigit then readNatAux cs (acc * 10 + (c.toNat - 48))
    else none

/-- Reading a written list of numbers back. -/
def readNats : Nat → List Char → Option (List Nat)
  | _, [] => some []
  | 0, _ :: _ => none
  | fuel + 1, c :: cs =>
    match readNatAux (c :: cs) 0 with
    | none => none
    | some (n, rest) => (readNats fuel rest).map (n :: ·)

/-- A string as numbers: its length, then its code points. -/
def stringCodes (s : String) : List Nat :=
  s.data.length :: s.data.map Char.toNat

/-- A claim value as numbers, for integers, strings, booleans and `null`. -/
def claimCodes : JVal → Option (List Nat)
  | .num n => some [0, if n < 0 then 1 else 0, n.natAbs]
  | .str s => some (1 :: stringCodes s)
  | .bool b => some [2, if b then 1 else 0]
  | .null => some [3]
  | _ => none

/-- The claims of a token as numbers. -/
def propsCodes : Props → Option (List Nat)
  | [] => some []
  | (k, v) :: rest =>
    match claimCodes v, propsCodes rest with
    | some c, some r => some (stringCodes k ++ c ++ r)
    | _, _ => none

/-- Reading a string back from its numbers. -/
def readString : List Nat → Option (String × List Nat)
  | [] => none
  | len :: rest =>
    if rest.length < len then none
    else some (String.mk ((rest.take len).map Char.ofNat), rest.drop len)

/-- Reading a claim value back from its numbers. -/
def readClaim : List Nat → Option (JVal × List Nat)
  | 0 :: sign :: m :: rest => some (.num (if sign = 1 then -(m : Int) else (m : Int)), rest)
  | 1 :: rest =>
    match readString rest with
    | some (s, r) => some (.str s, r)
    | none => none
  | 2 :: b :: rest => some (.bool (b == 1), rest)
  | 3 :: rest => some (.null, rest)
  | _ => none

/-- Reading the claims of a token back from their numbers. -/
def readProps : Nat → List Nat → Option Props
  | _, [] => some []
  | 0, _ :: _ => none
  | fuel + 1, c :: cs =>
    match readString (c :: cs) with
    | none => none
    | some (k, r1) =>
      match readClaim r1 with
      | none => none
      | some (v, r2) => (readProps fuel r2).map ((k, v) :: ·)

/-- The seconds of a time span such as `90s`, `15m`, `1h` or `7d`. -/
def timespanSeconds (cs : List Char) : Option Nat :=
  match cs.reverse with
  | [] => none
  | u :: ds =>
    if ds.isEmpty || !ds.all Char.isDigit then none
    else
      let n := ds.reverse.foldl (fun acc c => acc * 10 + (c.toNat - 48)) 0
      if u = 's' then some n
      else if u = 'm' then some (n * 60)
      else if u = 'h' then some (n * 3600)
      else if u = 'd' then some (n * 86400)
      else none

/-- The seconds meant by an `expiresIn` option: a number of seconds or a time
span. -/
def expirySeconds : JVal → Option Int
  | .num n => some n
  | .str s => (timespanSeconds s.data).map Int.ofNat
  | _ => none

/-- A small library with the interface of `jsonwebtoken`, for the concrete
instance of the round trip, signing at the time `signedAt` and verifying at the
time `verifiedAt` (seconds). A token is the written claims, a dot and the
written key; `sign` sets `iat` (the payload's own when it has one) and, with an
`expiresIn` option, `exp`; `verify` rejects a token with another key, an
unreadable one and an expired one. -/
def clockJwt (signedAt verifiedAt : Int) : Jwt :=
  { sign := fun payload secret opts =>
      match payload with
      | .obj props =>
        let timestamp : Int :=
          match getProp props "iat" with
          | some (.num t) => if t = 0 then signedAt else t
          | _ => signedAt
        let withIat := setProp props "iat" (.num timestamp)
        let claims : Except String Props :=
          match getProp opts "expiresIn" with
          | none => .ok withIat
          | some e =>
            match getProp props "exp" with
            | some _ => .error "the payload already has an \"exp\" property"
            | none =>
              match expirySeconds e with
              | some seconds => .ok (setProp withIat "exp" (.num (timestamp + seconds)))
              | none => .error "\"expiresIn\" should be a number of seconds or a timespan"
        match claims with
        | .error message => .error message
        | .ok cl =>
          match propsCodes cl with
          | some codes =>
            .ok (String.mk (writeNats codes ++ '.' :: writeNats (stringCodes secret)))
          | none => .error "unsupported claim value"
      | _ => .error "Expected \"payload\" to be a plain object"
    verify := fun token secret =>
      match splitChars '.' token.data with
      | [body, tag] =>
        if tag = writeNats (stringCodes secret) then
          match (readNats body.length body).bind fun codes => readProps codes.length codes with
          | some claims =>
            match getProp claims "exp" with
            | some (.num e) =>
              if verifiedAt ≥ e then .error "jwt expired" else .ok (.obj claims)
            | _ => .ok (.obj claims)
          | none => .error "jwt malformed"
        else .error "invalid signature"
      | _ => .error "jwt malformed" }

/-- The token the small library signs, at time 1000, for `{ userId: 1, role:
"admin" }` under the key `secretkey` with `{ expiresIn: '1h' }`. -/
def demoToken : String :=
  match (clockJwt 1000 2000).sign (.obj [("userId", .num 1), ("role", .str "admin")])
      "secretkey" [("expiresIn", .str "1h")] with
  | .ok token => token
  | .error _ => ""

/-! ## Entity services over the ORM -/

/-- The operations of a Sequelize model that the entity services use, over a
store `σ` with record instances `ρ`. An error is represented by its `message`.
`findByPk` reads the store and yields the instance or `null` (`none`);
`update` and `destroy` act on an instance and give the store afterwards. -/
structure Orm (σ ρ : Type) where
  findByPk : σ → Int → Except String (Option ρ)
  update : σ → ρ → Props → σ × Except String ρ
  destroy : σ → ρ → σ × Except String Unit

/-- Everything a service method does, in order. -/
inductive OrmEvent where
  | findByPk (id : Int) : OrmEvent
  | update (data : Props) : OrmEvent
  | destroy : OrmEvent
  | consoleError (label detail : String) : OrmEvent
  deriving Inhabited

/-- Is the event an `update` or a `destroy` of a record? -/
def OrmEvent.isWrite : OrmEvent → Bool
  | .update _ => true
  | .destroy => true
  | _ => false

/-- Result of a service method: the resolved value or the error the promise
rejects with, the store afterwards and the trace. -/
structure SvcOutcome (σ α : Type) where
  result : Except JsError α
  store : σ
  trace : List OrmEvent

/-- The common body of `getUserById`, `getIncomeById`, `getExpenseById` and
`getBalanceById`; the two strings are the `console.error` label and the message
of the re-thrown error. -/
def EntityService.getById {σ ρ : Type} (errorLabel failed : String) (orm : Orm σ ρ)
    (store : σ) (id : Int) : SvcOutcome σ (Option ρ) :=
  match orm.findByPk store id with
  | .ok found =>
    match found with
    | none => { result := .ok none, store := store, trace := [.findByPk id] }
    | some record => { result := .ok (some record), store := store, trace := [.findByPk id] }
  | .error message =>
    { result := .error { message := failed }
      store := store
      trace := [.findByPk id, .consoleError errorLabel message] }

/-- The common body of `updateUser`, `updateIncome`, `updateExpense` and
`updateBalance`; the strings are the `console.error` label, the message of the
not-found error and the message of the re-thrown error. -/
def EntityService.update {σ ρ : Type} (errorLabel notFound failed : String) (orm : Orm σ ρ)
    (store : σ) (id : Int) (data : Props) : SvcOutcome σ ρ :=
  match orm.findByPk store id with
  | .ok found =>
    match found with
    | none =>
      { result := .error { message := failed }
        store := store
        trace := [.findByPk id, .consoleError errorLabel notFound] }
    | some record =>
      match orm.update store record data with
      | (store2, .ok updated) =>
        { result := .ok updated, store := store2, trace := [.findByPk id, .update data] }
      | (store2, .error message) =>
        { result := .error { message := failed }
          store := store2
          trace := [.findByPk id, .update data, .consoleError errorLabel message] }
  | .error message =>
    { result := .error { message := failed }
      store := store
      trace := [.findByPk id, .consoleError errorLabel message] }

/-- The common body of `deleteUser`, `deleteIncome`, `deleteExpense` and
`deleteBalance`. -/
def EntityService.delete {σ ρ : Type} (errorLabel notFound failed : String) (orm : Orm σ ρ)
    (store : σ) (id : Int) : SvcOutcome σ Unit :=
  match orm.findByPk store id with
  | .ok found =>
    match found with
    | none =>
      { result := .error { message := failed }
        store := store
        trace := [.findByPk id, .consoleError errorLabel notFound] }
    | some record =>
      match orm.destroy store record with
      | (store2, .ok _) =>
        { result := .ok (), store := store2, trace := [.findByPk id, .destroy] }
      | (store2, .error message) =>
        { result := .error { message := failed }
          store := store2
          trace := [.findByPk id, .destroy, .consoleError errorLabel message] }
  | .error message =>
    { result := .error { message := failed }
      store := store
      trace := [.findByPk id, .consoleError errorLabel message] }

/-- The method `UserService.getUserById`. -/
def UserService.getUserById {σ ρ : Type} (orm : Orm σ ρ) (store : σ) (userId : Int) :
    SvcOutcome σ (Option ρ) :=
  EntityService.getById "Error retrieving user:" "Failed to retrieve user" orm store userId

/-- The method `UserService.updateUser`. -/
def UserService.updateUser {σ ρ : Type} (orm : Orm σ ρ) (store : σ) (userId : Int)
    (userData : Props) : SvcOutcome σ ρ :=
  EntityService.update "Error updating user:" "User not found" "Failed to update user"
    orm store userId userData

/-- The method `UserService.deleteUser`. -/
def UserService.deleteUser {σ ρ : Type} (orm : Orm σ ρ) (store : σ) (userId : Int) :
    SvcOutcome σ Unit :=
  EntityService.delete "Error deleting user:" "User not found" "Failed to delete user"
    orm store userId

/-- The method `IncomeService.getIncomeById`. -/
def IncomeService.getIncomeById {σ ρ : Type} (orm : Orm σ ρ) (store : σ) (incomeId : Int) :
    SvcOutcome σ (Option ρ) :=
  EntityService.getById "Error retrieving income:" "Failed to retrieve income" orm store incomeId

/-- The method `IncomeService.updateIncome`. -/
def IncomeService.updateIncome {σ ρ : Type} (orm : Orm σ ρ) (store : σ) (incomeId : Int)
    (incomeData : Props) : SvcOutcome σ ρ :=
  EntityService.update "Error updating income:" "Income not found" "Failed to update income"
    orm store incomeId incomeData

/-- The method `IncomeService.deleteIncome`. -/
def IncomeService.deleteIncome {σ ρ : Type} (orm : Orm σ ρ) (store : σ) (incomeId : Int) :
    SvcOutcome σ Unit :=
  EntityService.delete "Error deleting income:" "Income not found" "Failed to delete income"
    orm store incomeId

/-- The method `ExpenseService.getExpenseById`. -/
def ExpenseService.getExpenseById {σ ρ : Type} (orm : Orm σ ρ) (store : σ) (expenseId : Int) :
    SvcOutcome σ (Option ρ) :=
  EntityService.getById "Error retrieving expense:" "Failed to retrieve expense" orm store expenseId

/-- The method `ExpenseService.updateExpense`. -/
def ExpenseService.updateExpense {σ ρ : Type} (orm : Orm σ ρ) (store : σ) (expenseId : Int)
    (expenseData : Props) : SvcOutcome σ ρ :=
  EntityService.update "Error updating expense:" "Expense not found" "Failed to update expense"
    orm store expenseId expenseData

/-- The method `ExpenseService.deleteExpense`. -/
def ExpenseService.deleteExpense {σ ρ : Type} (orm : Orm σ ρ) (store : σ) (expenseId : Int) :
    SvcOutcome σ Unit :=
  EntityService.delete "Error deleting expense:" "Expense not found" "Failed to delete expense"
    orm store expenseId

/-- The method `BalanceService.getBalanceById`. -/
def BalanceService.getBalanceById {σ ρ : Type} (orm : Orm σ ρ) (store : σ) (balanceId : Int) :
    SvcOutcome σ (Option ρ) :=
  EntityService.getById "Error retrieving balance:" "Failed to retrieve balance" orm store balanceId

/-- The method `BalanceService.updateBalance`. -/
def BalanceService.updateBalance {σ ρ : Type} (orm : Orm σ ρ) (store : σ) (balanceId : Int)
    (balanceData : Props) : SvcOutcome σ ρ :=
  EntityService.update "Error updating balance:" "Balance not found" "Failed to update balance"
    orm store balanceId balanceData

/-- The method `BalanceService.deleteBalance`. -/
def BalanceService.deleteBalance {σ ρ : Type} (orm : Orm σ ρ) (store : σ) (balanceId : Int) :
    SvcOutcome σ Unit :=
  EntityService.delete "Error deleting balance:" "Balance not found" "Failed to delete balance"
    orm store balanceId

/-- A keyed store: the rows of a table by primary key. -/
abbrev KeyedStore := List (Int × Props)

/-- The ORM over a keyed store: `findByPk` looks the key up, `update` merges
the data into the row of the instance, `destroy` removes its row. -/
def keyedOrm : Orm KeyedStore (Int × Props) :=
  { findByPk := fun store id => .ok ((store.lookup id).map fun row => (id, row))
    update := fun store record data =>
      (store.map fun kv => if kv.1 = record.1 then (kv.1, spread2 kv.2 data) else kv,
        .ok (record.1, spread2 record.2 data))
    destroy := fun store record => (store.filter fun kv => kv.1 != record.1, .ok ()) }

/-- A store with the one user of key 1. -/
def demoStore : KeyedStore :=
  [(1, [("name", .str "Ana"), ("email", .str "ana@example.org")])]

/-! ## Lemmas on property lists -/

theorem getProp_eq_none_iff (o : Props) (key : String) :
    getProp o key = none ↔ key ∉ o.map Prod.fst := by
  induction o with
  | nil => simp [getProp]
  | cons kv rest ih =>
    obtain ⟨k, v⟩ := kv
    simp only [getProp, List.map_cons, List.mem_cons, not_or]
    cases hr : getProp rest key with
    | some w =>
      have hmem : key ∈ rest.map Prod.fst := by
        by_contra hn
        simp [ih.mpr hn] at hr
      simp only [hmem, not_true_eq_false, and_false]
      simp
    | none =>
      have hn := ih.mp hr
      by_cases hk : k = key
      · simp [hk]
      · simp [hk, hn, Ne.symm hk]

theorem mem_keys_setProp (o : Props) (k : String) (v : JVal) (x : String) :
    x ∈ (setProp o k v).map Prod.fst ↔ x = k ∨ x ∈ o.map Prod.fst := by
  induction o with
  | nil => simp [setProp]
  | cons kv rest ih =>
    obtain ⟨k1, w⟩ := kv
    by_cases hk : k1 = k
    · simp [setProp, hk]
    · simp only [setProp, hk, if_false, List.map_cons, List.mem_cons, ih]
      tauto

theorem nodup_keys_setProp (o : Props) (k : String) (v : JVal)
    (h : (o.map Prod.fst).Nodup) : ((setProp o k v).map Prod.fst).Nodup := by
  induction o with
  | nil => simp [setProp]
  | cons kv rest ih =>
    obtain ⟨k1, w⟩ := kv
    simp only [List.map_cons, List.nodup_cons] at h
    by_cases hk : k1 = k
    · simpa [setProp, hk] using h
    · simp only [setProp, hk, if_false, List.map_cons, List.nodup_cons, mem_keys_setProp]
      refine ⟨?_, ih h.2⟩
      simpa using h.1

theorem getProp_setProp (o : Props) (k : String) (v : JVal) (key : String)
    (h : (o.map Prod.fst).Nodup) :
    getProp (setProp o k v) key = if k = key then some v else getProp o key := by
  induction o with
  | nil => simp [setProp, getProp]
  | cons kv rest ih =>
    obtain ⟨k1, w⟩ := kv
    simp only [List.map_cons, List.nodup_cons] at h
    by_cases hk : k1 = k
    · subst hk
      by_cases hkey : k1 = key
      · subst hkey
        have hnone : getProp rest k1 = none := (getProp_eq_none_iff rest k1).mpr h.1
        simp [setProp, getProp, hnone]
      · simp [setProp, getProp, hkey]
    · simp only [setProp, hk, if_false, getProp, ih h.2]
      by_cases hkey : k = key
      · subst hkey
        simp
      · simp [hkey]

theorem copyDataProperties_spec (source target : Props) (key : String)
    (h : (target.map Prod.fst).Nodup) :
    ((copyDataProperties target source).map Prod.fst).Nodup ∧
      getProp (copyDataProperties target source) key =
        match getProp source key with
        | some v => some v
        | none => getProp target key := by
  induction source generalizing target with
  | nil => simp [copyDataProperties, getProp, h]
  | cons kv rest ih =>
    obtain ⟨k, v⟩ := kv
    have h2 := nodup_keys_setProp target k v h
    have := ih (setProp target k v) h2
    simp only [copyDataProperties, List.foldl_cons] at this ⊢
    refine ⟨this.1, ?_⟩
    rw [this.2, getProp_setProp target k v key h]
    simp only [getProp]
    cases getProp rest key with
    | some x => simp
    | none => by_cases hk : k = key <;> simp [hk]

/-- Reading a key of `{ ...a, ...b }`: the value in `b` when `b` has the key,
otherwise what `a` has. -/
theorem getProp_spread2 (a b : Props) (key : String) :
    getProp (spread2 a b) key =
      match getProp b key with
      | some v => some v
      | none => getProp a key := by
  have ha := copyDataProperties_spec a [] key (by simp)
  have hb := copyDataProperties_spec b (copyDataProperties [] a) key ha.1
  rw [spread2, hb.2, ha.2]
  cases getProp b key <;> cases getProp a key <;> simp [getProp]

/-! ## Authentication: the three branches -/

/-- C1: a request without an Authorization header, or whose header has no
non-empty second segment (such as `Bearer` or `Bearer `), gets exactly the
response 401 `{ success: false, message: "Access denied: No token provided",
code: "TOKEN_MISSING" }`; `jwt.verify` is not called, `next` is not called and
`req.user` is untouched. -/
theorem authenticateToken_missing (self : AuthService) (jwt : Jwt) (req : Request)
    (h : req.authorization = none ∨
      ∃ hdr, req.authorization = some hdr ∧
        ((jsSplitSpace hdr)[1]? = none ∨ (jsSplitSpace hdr)[1]? = some "")) :
    (self.authenticateToken jwt req).trace =
        [.log .error "Access denied: No token provided" .undefined,
         .status 401,
         .json (.obj [("success", .bool false),
                      ("message", .str "Access denied: No token provided"),
                      ("code", .str "TOKEN_MISSING")])] ∧
      (self.authenticateToken jwt req).trace.any Event.isVerify = false ∧
      (self.authenticateToken jwt req).trace.any Event.isNext = false ∧
      (self.authenticateToken jwt req).user = req.user := by
  have hc : candidateToken req.authorization = none ∨
      candidateToken req.authorization = some "" := by
    rcases h with h | ⟨hdr, h, h1 | h1⟩
    · left; simp [h, candidateToken]
    · by_cases he : hdr = ""
      · right; simp [h, candidateToken, he]
      · left; simp [h, candidateToken, he, h1]
    · right
      by_cases he : hdr = ""
      · simp [h, candidateToken, he]
      · simp [h, candidateToken, he, h1]
  rcases hc with hc | hc <;>
    simp [AuthService.authenticateToken, hc, rejection, Event.isVerify, Event.isNext]

/-- C1, at the headers `Bearer` and `Bearer ` and at a request without header. -/
theorem authenticateToken_missing_witness :
    ((authService none).authenticateToken demoJwt ⟨some "Bearer ", .undefined⟩).trace =
        [.log .error "Access denied: No token provided" .undefined,
         .status 401,
         .json (.obj [("success", .bool false),
                      ("message", .str "Access denied: No token provided"),
                      ("code", .str "TOKEN_MISSING")])] ∧
      ((authService none).authenticateToken demoJwt ⟨some "Bearer", .undefined⟩).trace.any
        Event.isVerify = false ∧
      ((authService none).authenticateToken demoJwt ⟨none, .undefined⟩).trace.any
        Event.isNext = false :=
  ⟨(authenticateToken_missing (authService none) demoJwt ⟨some "Bearer ", .undefined⟩
      (Or.inr ⟨"Bearer ", rfl, Or.inr (by decide)⟩)).1,
   (authenticateToken_missing (authService none) demoJwt ⟨some "Bearer", .undefined⟩
      (Or.inr ⟨"Bearer", rfl, Or.inl (by decide)⟩)).2.1,
   (authenticateToken_missing (authService none) demoJwt ⟨none, .undefined⟩
      (Or.inl rfl)).2.2.1⟩

/-- C2: when a non-empty candidate token is extracted and its verification
against the service's secret fails, whatever the error, the response is exactly
403 `{ success: false, message: "Invalid token", code: "TOKEN_INVALID" }`; no
401 / `TOKEN_MISSING` is written, `next` is not called and `req.user` is
untouched. -/
theorem authenticateToken_invalid (self : AuthService) (jwt : Jwt) (req : Request)
    (token errMessage : String)
    (hc : candidateToken req.authorization = some token) (hne : token ≠ "")
    (hv : jwt.verify token self.secretKey = .error errMessage) :
    (self.authenticateToken jwt req).trace =
        [.verifyCall token self.secretKey,
         .log .error "Invalid token" (.obj [("metadata", .obj [("error", .str errMessage)])]),
         .status 403,
         .json (.obj [("success", .bool false),
                      ("message", .str "Invalid token"),
                      ("code", .str "TOKEN_INVALID")])] ∧
      Event.status 401 ∉ (self.authenticateToken jwt req).trace ∧
      (∀ body, Event.json body ∈ (self.authenticateToken jwt req).trace →
        body.member "code" = .str "TOKEN_INVALID") ∧
      (self.authenticateToken jwt req).trace.any Event.isNext = false ∧
      (self.authenticateToken jwt req).user = req.user := by
  simp [AuthService.authenticateToken, hc, hne, hv, rejection, Event.isNext, JVal.member,
    getProp]

/-- C2, at a token signed with another secret, at a malformed token and at an
expired token. -/
theorem authenticateToken_invalid_witness :
    ((AuthService.new ⟨"other", []⟩).authenticateToken demoJwt
        ⟨some "Bearer h.p.s", .undefined⟩).trace =
        [.verifyCall "h.p.s" "other",
         .log .error "Invalid token"
           (.obj [("metadata", .obj [("error", .str "jwt malformed")])]),
         .status 403,
         .json (.obj [("success", .bool false),
                      ("message", .str "Invalid token"),
                      ("code", .str "TOKEN_INVALID")])] ∧
      ((authService none).authenticateToken demoJwt
        ⟨some "Bearer x", .undefined⟩).trace.any Event.isNext = false ∧
      Event.status 401 ∉ ((authService none).authenticateToken demoJwt
        ⟨some "Bearer old", .undefined⟩).trace :=
  ⟨(authenticateToken_invalid (AuthService.new ⟨"other", []⟩) demoJwt
      ⟨some "Bearer h.p.s", .undefined⟩ "h.p.s" "jwt malformed"
      (by decide) (by decide) rfl).1,
   (authenticateToken_invalid (authService none) demoJwt
      ⟨some "Bearer x", .undefined⟩ "x" "jwt malformed"
      (by decide) (by decide) rfl).2.2.2.1,
   (authenticateToken_invalid (authService none) demoJwt
      ⟨some "Bearer old", .undefined⟩ "old" "jwt expired"
      (by decide) (by decide) rfl).2.1⟩

/-- C3: when the extracted token verifies with decoded claims `decoded`, the
middleware sets `req.user` to exactly `decoded`, then calls `next`, once, and
writes nothing to the response. -/
theorem authenticateToken_success (self : AuthService) (jwt : Jwt) (req : Request)
    (token : String) (decoded : JVal)
    (hc : candidateToken req.authorization = some token) (hne : token ≠ "")
    (hv : jwt.verify token self.secretKey = .ok decoded) :
    (self.authenticateToken jwt req).user = decoded ∧
      (self.authenticateToken jwt req).trace =
        [.verifyCall token self.secretKey, .setUser decoded, .next] ∧
      ((self.authenticateToken jwt req).trace.filter Event.isNext).length = 1 ∧
      (self.authenticateToken jwt req).trace.any Event.isResponse = false := by
  simp [AuthService.authenticateToken, hc, hne, hv, Event.isNext, Event.isResponse]

/-- C3, at the header `Bearer h.p.s` of the stand-in library. -/
theorem authenticateToken_success_witness :
    ((authService none).authenticateToken demoJwt ⟨some "Bearer h.p.s", .undefined⟩).user =
        demoClaims ∧
      ((authService none).authenticateToken demoJwt ⟨some "Bearer h.p.s", .undefined⟩).trace =
        [.verifyCall "h.p.s" "secretkey", .setUser demoClaims, .next] ∧
      (((authService none).authenticateToken demoJwt
        ⟨some "Bearer h.p.s", .undefined⟩).trace.filter Event.isNext).length = 1 ∧
      ((authService none).authenticateToken demoJwt
        ⟨some "Bearer h.p.s", .undefined⟩).trace.any Event.isResponse = false :=
  authenticateToken_success (authService none) demoJwt ⟨some "Bearer h.p.s", .undefined⟩
    "h.p.s" demoClaims (by decide) (by decide) rfl

/-! ## Role authorization -/

theorem rolesInclude_iff (roles : List String) (x : JVal) :
    rolesInclude roles x = true ↔ ∃ r ∈ roles, x = .str r := by
  cases x <;> simp [rolesInclude]

theorem member_of_not_truthy (v : JVal) (key : String) (h : v.truthy = false) :
    v.member key = .undefined := by
  cases v <;> simp_all [JVal.truthy, JVal.member]

theorem authorizeRoles_guard (roles : List String) (user : JVal) :
    (!user.truthy || !rolesInclude roles (user.member "role")) = true ↔
      (user = .undefined ∨ ¬ ∃ r ∈ roles, user.member "role" = .str r) := by
  rw [← rolesInclude_iff]
  constructor
  · intro h
    right
    cases ht : user.truthy with
    | false => simp [member_of_not_truthy user "role" ht, rolesInclude]
    | true => simpa [ht] using h
  · rintro (h | h)
    · simp [h, JVal.truthy]
    · simp [h]

theorem authorizeRoles_of_guard (self : AuthService) (roles : List String) (req : Request)
    (h : (!req.user.truthy || !rolesInclude roles (req.user.member "role")) = true) :
    self.authorizeRoles roles req =
      { user := req.user
        trace := [.log .warn "Access denied: Insufficient permissions"
                    (.obj [("metadata", .obj [("user", req.user)])]),
                  .status 403,
                  .json (.obj [("success", .bool false),
                               ("message", .str "Access denied: Insufficient permissions"),
                               ("code", .str "INSUFFICIENT_PERMISSIONS")])] } := by
  simp only [AuthService.authorizeRoles, h, if_true, rejection]

theorem authorizeRoles_of_not_guard (self : AuthService) (roles : List String) (req : Request)
    (h : ¬ (!req.user.truthy || !rolesInclude roles (req.user.member "role")) = true) :
    self.authorizeRoles roles req = { user := req.user, trace := [.next] } := by
  simp only [AuthService.authorizeRoles, h, Bool.false_eq_true, if_false]

/-- C5: `authorizeRoles(roles)` rejects exactly when no principal is attached or
the principal's `role` is not equal, as a string, to an element of `roles`. A
rejection is the response 403 `{ success: false, message: "Access denied:
Insufficient permissions", code: "INSUFFICIENT_PERMISSIONS" }` without a call of
`next`; otherwise the run is a single call of `next` and no response. In
particular `authorizeRoles(["admin"])` rejects the role `"user"` and accepts the
role `"admin"`. -/
theorem authorizeRoles_decision (self : AuthService) (roles : List String) (req : Request) :
    ((self.authorizeRoles roles req).trace =
          [.log .warn "Access denied: Insufficient permissions"
             (.obj [("metadata", .obj [("user", req.user)])]),
           .status 403,
           .json (.obj [("success", .bool false),
                        ("message", .str "Access denied: Insufficient permissions"),
                        ("code", .str "INSUFFICIENT_PERMISSIONS")])] ↔
        (req.user = .undefined ∨ ¬ ∃ r ∈ roles, req.user.member "role" = .str r)) ∧
      ((self.authorizeRoles roles req).trace = [.next] ↔
        ¬ (req.user = .undefined ∨ ¬ ∃ r ∈ roles, req.user.member "role" = .str r)) ∧
      (self.authorizeRoles roles req).user = req.user ∧
      (self.authorizeRoles ["admin"] ⟨req.authorization, .obj [("role", .str "user")]⟩).trace =
          [.log .warn "Access denied: Insufficient permissions"
             (.obj [("metadata", .obj [("user", .obj [("role", .str "user")])])]),
           .status 403,
           .json (.obj [("success", .bool false),
                        ("message", .str "Access denied: Insufficient permissions"),
                        ("code", .str "INSUFFICIENT_PERMISSIONS")])] ∧
      (self.authorizeRoles ["admin"] ⟨req.authorization, .obj [("role", .str "admin")]⟩).trace =
          [.next] := by
  have hg := authorizeRoles_guard roles req.user
  refine ⟨?_, ?_, ?_, rfl, rfl⟩
  · by_cases hc : (!req.user.truthy || !rolesInclude roles (req.user.member "role")) = true
    · rw [authorizeRoles_of_guard self roles req hc]
      exact ⟨fun _ => hg.mp hc, fun _ => rfl⟩
    · rw [authorizeRoles_of_not_guard self roles req hc]
      constructor
      · intro h
        simp at h
      · intro h
        exact absurd (hg.mpr h) hc
  · by_cases hc : (!req.user.truthy || !rolesInclude roles (req.user.member "role")) = true
    · rw [authorizeRoles_of_guard self roles req hc]
      constructor
      · intro h
        simp at h
      · intro h
        exact absurd (hg.mp hc) h
    · rw [authorizeRoles_of_not_guard self roles req hc]
      exact ⟨fun _ h => hc (hg.mpr h), fun _ => rfl⟩
  · by_cases hc : (!req.user.truthy || !rolesInclude roles (req.user.member "role")) = true
    · rw [authorizeRoles_of_guard self roles req hc]
    · rw [authorizeRoles_of_not_guard self roles req hc]

/-! ## Token issuance -/

theorem generateToken_of_sign_ok (self : AuthService) (jwt : Jwt) (payload : JVal)
    (options : Option Props) (token : String)
    (h : jwt.sign payload self.secretKey (spread2 self.tokenOptions (options.getD [])) =
      .ok token) :
    self.generateToken jwt payload options =
      { result := .ok token
        trace := [.signCall payload self.secretKey
          (spread2 self.tokenOptions (options.getD []))] } := by
  simp only [AuthService.generateToken, h]

theorem generateToken_of_sign_error (self : AuthService) (jwt : Jwt) (payload : JVal)
    (options : Option Props) (cause : String)
    (h : jwt.sign payload self.secretKey (spread2 self.tokenOptions (options.getD [])) =
      .error cause) :
    self.generateToken jwt payload options =
      { result := .error { message := "Failed to generate token" }
        trace := [.signCall payload self.secretKey
                    (spread2 self.tokenOptions (options.getD [])),
                  .log .error "Error generating token"
                    (.obj [("metadata", .obj [("error", .str cause)])])] } := by
  simp only [AuthService.generateToken, h]

/-- C6: the options handed to `jwt.sign` are the shallow merge of the configured
defaults with the per-call options: a key of the per-call options carries the
per-call value (whole), another key carries what the defaults have, and a key of
neither is absent. With the options omitted they read as the defaults, and for
the exported service they are exactly `{ expiresIn: '1h' }`. -/
theorem generateToken_options (self : AuthService) (jwt : Jwt) (payload : JVal)
    (options : Option Props) :
    (self.generateToken jwt payload options).trace.filter Event.isSign =
        [.signCall payload self.secretKey (spread2 self.tokenOptions (options.getD []))] ∧
      (∀ key, getProp (spread2 self.tokenOptions (options.getD [])) key =
        match getProp (options.getD []) key with
        | some v => some v
        | none => getProp self.tokenOptions key) ∧
      (∀ key, getProp (spread2 self.tokenOptions ((none : Option Props).getD [])) key =
        getProp self.tokenOptions key) ∧
      (∀ env, ((authService env).generateToken jwt payload none).trace.filter Event.isSign =
        [.signCall payload (authService env).secretKey [("expiresIn", .str "1h")]]) := by
  have hsign : ∀ (s : AuthService) (o : Option Props),
      (s.generateToken jwt payload o).trace.filter Event.isSign =
        [.signCall payload s.secretKey (spread2 s.tokenOptions (o.getD []))] := by
    intro s o
    cases hs : jwt.sign payload s.secretKey (spread2 s.tokenOptions (o.getD [])) with
    | ok token => simp [generateToken_of_sign_ok s jwt payload o token hs, Event.isSign]
    | error cause => simp [generateToken_of_sign_error s jwt payload o cause hs, Event.isSign]
  refine ⟨hsign self options, fun key => getProp_spread2 _ _ key, ?_, ?_⟩
  · intro key
    rw [getProp_spread2]
    simp [getProp]
  · intro env
    rw [hsign]
    rfl

/-- C6, at a nested default: the per-call value replaces the whole default value
of its key, and the other default key is kept. -/
theorem generateToken_options_witness :
    getProp (spread2 [("expiresIn", .str "1h"), ("header", .obj [("a", .num 1), ("b", .num 2)])]
        [("header", .obj [("a", .num 9)])]) "header" = some (.obj [("a", .num 9)]) ∧
      getProp (spread2 [("expiresIn", .str "1h"), ("header", .obj [("a", .num 1), ("b", .num 2)])]
        [("header", .obj [("a", .num 9)])]) "expiresIn" = some (.str "1h") ∧
      getProp (spread2 [("expiresIn", .str "1h"), ("header", .obj [("a", .num 1), ("b", .num 2)])]
        [("header", .obj [("a", .num 9)])]) "audience" = none :=
  have h := (generateToken_options
    ⟨"secretkey", [("expiresIn", .str "1h"), ("header", .obj [("a", .num 1), ("b", .num 2)])]⟩
    demoJwt .null (some [("header", .obj [("a", .num 9)])])).2.1
  ⟨h "header", h "expiresIn", h "audience"⟩

/-- C7: `generateToken` throws exactly when `jwt.sign` throws; the thrown error
is `Error('Failed to generate token')` whatever the cause, so two different
signing failures give the same error to the caller; when signing succeeds its
token is returned unchanged. -/
theorem generateToken_result (self : AuthService) (jwt : Jwt) (payload : JVal)
    (options : Option Props) :
    ((self.generateToken jwt payload options).result =
        match jwt.sign payload self.secretKey (spread2 self.tokenOptions (options.getD [])) with
        | .ok token => .ok token
        | .error _ => .error { message := "Failed to generate token" }) ∧
      ((∃ e, (self.generateToken jwt payload options).result = .error e) ↔
        ∃ cause, jwt.sign payload self.secretKey
          (spread2 self.tokenOptions (options.getD [])) = .error cause) ∧
      (∀ (self2 : AuthService) (jwt2 : Jwt) (payload2 : JVal) (options2 : Option Props) e e2,
        (self.generateToken jwt payload options).result = .error e →
        (self2.generateToken jwt2 payload2 options2).result = .error e2 →
        e = e2 ∧ e.message = "Failed to generate token") := by
  have key : ∀ (s : AuthService) (j : Jwt) (p : JVal) (o : Option Props),
      (s.generateToken j p o).result =
        match j.sign p s.secretKey (spread2 s.tokenOptions (o.getD [])) with
        | .ok token => .ok token
        | .error _ => .error { message := "Failed to generate token" } := by
    intro s j p o
    cases hs : j.sign p s.secretKey (spread2 s.tokenOptions (o.getD [])) with
    | ok token => rw [generateToken_of_sign_ok s j p o token hs]
    | error cause => rw [generateToken_of_sign_error s j p o cause hs]
  refine ⟨key _ _ _ _, ?_, ?_⟩
  · rw [key]
    cases jwt.sign payload self.secretKey (spread2 self.tokenOptions (options.getD [])) <;> simp
  · intro self2 jwt2 payload2 options2 e e2 h1 h2
    rw [key] at h1 h2
    cases hs : jwt.sign payload self.secretKey (spread2 self.tokenOptions (options.getD []))
      <;> rw [hs] at h1 <;> simp at h1
    cases hs2 : jwt2.sign payload2 self2.secretKey (spread2 self2.tokenOptions (options2.getD []))
      <;> rw [hs2] at h2 <;> simp at h2
    subst h1 h2
    exact ⟨rfl, rfl⟩

/-- C7, at two libraries failing with different messages and at one that signs. -/
theorem generateToken_result_witness :
    ((authService none).generateToken (failingJwt "Expected \"payload\" to be a plain object")
        (.num 1) none).result = .error { message := "Failed to generate token" } ∧
      ((authService none).generateToken (failingJwt "secretOrPrivateKey must have a value")
        (.obj []) (some [])).result = .error { message := "Failed to generate token" } ∧
      ((authService none).generateToken demoJwt (.obj []) none).result = .ok "h.p.s" :=
  ⟨(generateToken_result (authService none)
      (failingJwt "Expected \"payload\" to be a plain object") (.num 1) none).1,
   (generateToken_result (authService none)
      (failingJwt "secretOrPrivateKey must have a value") (.obj []) (some [])).1,
   (generateToken_result (authService none) demoJwt (.obj []) none).1⟩

/-! ## Splitting the header -/

theorem splitChars_of_not_mem (sep : Char) (l : List Char) (h : sep ∉ l) :
    splitChars sep l = [l] := by
  induction l with
  | nil => rfl
  | cons c cs ih =>
    simp only [List.mem_cons, not_or] at h
    have hc : ¬ c = sep := fun e => h.1 e.symm
    simp [splitChars, hc, ih h.2]

theorem splitChars_append_sep (sep : Char) (a r : List Char) (h : sep ∉ a) :
    splitChars sep (a ++ sep :: r) = a :: splitChars sep r := by
  induction a with
  | nil => simp [splitChars]
  | cons c cs ih =>
    simp only [List.mem_cons, not_or] at h
    have hc : ¬ c = sep := fun e => h.1 e.symm
    simp [splitChars, hc, ih h.2]

/-- The first word of the header does not enter the candidate token: it is the
first segment of what follows the first space. -/
theorem candidateToken_after_space (a rest : String) (ha : ' ' ∉ a.data) :
    candidateToken (some (a ++ " " ++ rest)) = (jsSplitSpace rest)[0]? := by
  have hne : a ++ " " ++ rest ≠ "" := by
    intro h
    have := congrArg String.data h
    simp at this
  have hsp : (" " : String).data = [' '] := rfl
  simp only [candidateToken, hne, if_false, jsSplitSpace, String.data_append, hsp,
    List.append_assoc, List.singleton_append, splitChars_append_sep _ _ _ ha]
  simp

theorem jsSplitSpace_head_of_not_mem (b : String) (hb : ' ' ∉ b.data) :
    (jsSplitSpace b)[0]? = some b := by
  simp [jsSplitSpace, splitChars_of_not_mem _ _ hb]

theorem jsSplitSpace_head_append (b rest : String) (hb : ' ' ∉ b.data) :
    (jsSplitSpace (b ++ " " ++ rest))[0]? = some b := by
  have hsp : (" " : String).data = [' '] := rfl
  simp [jsSplitSpace, String.data_append, hsp, splitChars_append_sep _ _ _ hb]

theorem candidateToken_bearer (token : String) (h : ' ' ∉ token.data) :
    candidateToken (some ("Bearer " ++ token)) = some token := by
  have hb : ("Bearer " : String) = "Bearer" ++ " " := by decide
  rw [hb, candidateToken_after_space "Bearer" token (by decide),
    jsSplitSpace_head_of_not_mem token h]

/-- On a header whose whitespace is single spaces, splitting at each space and
splitting on runs of whitespace give the same segments. -/
theorem whitespaceSegmentsAux_of_singleSpaced (l : List Char) (h : singleSpaced l = true) :
    whitespaceSegmentsAux false l = splitChars ' ' l ∧
      (l.head? ≠ some ' ' → whitespaceSegmentsAux true l = splitChars ' ' l) := by
  induction l with
  | nil => simp [whitespaceSegmentsAux, splitChars]
  | cons c cs ih =>
    simp only [singleSpaced, Bool.and_eq_true, bne_iff_ne, ne_eq, Bool.not_eq_true',
      Bool.and_eq_false_imp, beq_iff_eq] at h
    obtain ⟨⟨htab, hadj⟩, hrest⟩ := h
    have ih1 := (ih hrest).1
    have ih2 := (ih hrest).2
    by_cases hc : c = ' '
    · subst hc
      have hcs : cs.head? ≠ some ' ' := by
        intro he
        have := hadj rfl
        simp [he] at this
      refine ⟨?_, fun hh => absurd rfl hh⟩
      simp [whitespaceSegmentsAux, splitChars, isBlank, ih2 hcs]
    · have hb : isBlank c = false := by simp [isBlank, hc, htab]
      simp [whitespaceSegmentsAux, splitChars, hb, hc, ih1]

/-! ## The branches of `authenticateToken` -/

theorem authenticateToken_of_no_token (self : AuthService) (jwt : Jwt) (req : Request)
    (h : candidateToken req.authorization = none ∨ candidateToken req.authorization = some "") :
    self.authenticateToken jwt req =
      { user := req.user
        trace := [.log .error "Access denied: No token provided" .undefined,
                  .status 401,
                  .json (.obj [("success", .bool false),
                               ("message", .str "Access denied: No token provided"),
                               ("code", .str "TOKEN_MISSING")])] } := by
  rcases h with h | h <;> simp [AuthService.authenticateToken, h, rejection]

theorem authenticateToken_of_verify_error (self : AuthService) (jwt : Jwt) (req : Request)
    (token errMessage : String)
    (hc : candidateToken req.authorization = some token) (hne : token ≠ "")
    (hv : jwt.verify token self.secretKey = .error errMessage) :
    self.authenticateToken jwt req =
      { user := req.user
        trace := [.verifyCall token self.secretKey,
                  .log .error "Invalid token"
                    (.obj [("metadata", .obj [("error", .str errMessage)])]),
                  .status 403,
                  .json (.obj [("success", .bool false),
                               ("message", .str "Invalid token"),
                               ("code", .str "TOKEN_INVALID")])] } := by
  simp [AuthService.authenticateToken, hc, hne, hv, rejection]

theorem authenticateToken_of_verify_ok (self : AuthService) (jwt : Jwt) (req : Request)
    (token : String) (decoded : JVal)
    (hc : candidateToken req.authorization = some token) (hne : token ≠ "")
    (hv : jwt.verify token self.secretKey = .ok decoded) :
    self.authenticateToken jwt req =
      { user := decoded
        trace := [.verifyCall token self.secretKey, .setUser decoded, .next] } := by
  simp [AuthService.authenticateToken, hc, hne, hv]

/-- The calls of `jwt.verify` in a run: one, on the candidate token, when that is
a non-empty string, none otherwise. -/
theorem authenticateToken_verify_calls (self : AuthService) (jwt : Jwt) (req : Request) :
    (self.authenticateToken jwt req).trace.filter Event.isVerify =
      match candidateToken req.authorization with
      | some t => if t = "" then [] else [.verifyCall t self.secretKey]
      | none => [] := by
  cases hc : candidateToken req.authorization with
  | none =>
    rw [authenticateToken_of_no_token self jwt req (Or.inl hc)]
    simp [Event.isVerify]
  | some t =>
    by_cases ht : t = ""
    · subst ht
      rw [authenticateToken_of_no_token self jwt req (Or.inr hc)]
      simp [Event.isVerify]
    · cases hv : jwt.verify t self.secretKey with
      | error e =>
        rw [authenticateToken_of_verify_error self jwt req t e hc ht hv]
        simp [Event.isVerify, ht]
      | ok d =>
        rw [authenticateToken_of_verify_ok self jwt req t d hc ht hv]
        simp [Event.isVerify, ht]

/-! ## Round trip -/

/-- A token returned by `generateToken` comes from `jwt.sign` on the merged
options. -/
theorem sign_of_generateToken (self : AuthService) (jwt : Jwt) (payload : JVal)
    (options : Option Props) (token : String)
    (hgen : (self.generateToken jwt payload options).result = .ok token) :
    jwt.sign payload self.secretKey (spread2 self.tokenOptions (options.getD [])) =
      .ok token := by
  cases hs : jwt.sign payload self.secretKey
      (spread2 self.tokenOptions (options.getD [])) with
  | ok t =>
    rw [generateToken_of_sign_ok self jwt _ options t hs] at hgen
    simpa using hgen
  | error cause =>
    rw [generateToken_of_sign_error self jwt _ options cause hs] at hgen
    simp at hgen

/-- The round trip for any service, with the library's round trip asked at the
options that reach `jwt.sign`. -/
theorem authenticateToken_of_generateToken (self : AuthService) (jwt : Jwt)
    (payload : Props) (options : Option Props) (token : String) (user0 : JVal)
    (hlib : RoundTripsAt jwt self.secretKey payload
      (spread2 self.tokenOptions (options.getD [])))
    (hgen : (self.generateToken jwt (.obj payload) options).result = .ok token) :
    ∃ principal,
      (self.authenticateToken jwt ⟨some ("Bearer " ++ token), user0⟩).user = .obj principal ∧
      ExtendsPayload payload principal ∧
      (self.authenticateToken jwt ⟨some ("Bearer " ++ token), user0⟩).trace =
        [.verifyCall token self.secretKey, .setUser (.obj principal), .next] := by
  obtain ⟨hne, hsp, decoded, hv, hext⟩ :=
    hlib token (sign_of_generateToken self jwt _ options token hgen)
  refine ⟨decoded, ?_, hext, ?_⟩ <;>
    rw [authenticateToken_of_verify_ok self jwt ⟨some ("Bearer " ++ token), user0⟩ token
      (.obj decoded) (candidateToken_bearer token hsp) hne hv]

/-- C4: round trip, for the exported service. Let the per-call options be
omitted (the expiry is then the default `'1h'`) or an override
`{ expiresIn: expiry }`, and let the library round-trip the payload object at
the options `{ expiresIn: expiry }` (`RoundTripsAt`: a serializable payload,
verified before expiry). When `generateToken` returns `token`,
`authenticateToken` on the header `"Bearer " ++ token` attaches a principal that
agrees with the payload on each of its keys and has no key besides those, `iat`
and `exp`, and calls `next` (once, without writing a response). -/
theorem generateToken_authenticateToken_roundtrip (env : Option String) (jwt : Jwt)
    (payload : Props) (options : Option Props) (expiry : JVal) (token : String)
    (user0 : JVal)
    (hopt : (options = none ∧ expiry = .str "1h") ∨ options = some [("expiresIn", expiry)])
    (hlib : RoundTripsAt jwt (authService env).secretKey payload [("expiresIn", expiry)])
    (hgen : ((authService env).generateToken jwt (.obj payload) options).result = .ok token) :
    ∃ principal,
      ((authService env).authenticateToken jwt ⟨some ("Bearer " ++ token), user0⟩).user =
        .obj principal ∧
      ExtendsPayload payload principal ∧
      ((authService env).authenticateToken jwt ⟨some ("Bearer " ++ token), user0⟩).trace =
        [.verifyCall token (authService env).secretKey, .setUser (.obj principal), .next] := by
  have heff : spread2 (authService env).tokenOptions (options.getD []) =
      [("expiresIn", expiry)] := by
    rcases hopt with ⟨h1, h2⟩ | h
    · subst h1 h2
      rfl
    · subst h
      rfl
  exact authenticateToken_of_generateToken (authService env) jwt payload options token user0
    (by rw [heff]; exact hlib) hgen

/-- The small library signs the scenario's payload to `demoToken`. -/
theorem clockJwt_sign_demo :
    (clockJwt 1000 2000).sign (.obj [("userId", .num 1), ("role", .str "admin")])
      "secretkey" [("expiresIn", .str "1h")] = .ok demoToken :=
  rfl

/-- Before expiry, the small library verifies `demoToken` to the payload with
`iat` and `exp`. -/
theorem clockJwt_verify_demo :
    (clockJwt 1000 2000).verify demoToken "secretkey" =
      .ok (.obj [("userId", .num 1), ("role", .str "admin"), ("iat", .num 1000),
        ("exp", .num 4600)]) :=
  rfl

/-- After expiry, the small library rejects `demoToken`. -/
theorem clockJwt_verify_demo_expired :
    (clockJwt 1000 5000).verify demoToken "secretkey" = .error "jwt expired" :=
  rfl

/-- The small library round-trips `{ userId: 1, role: "admin" }` signed at time
1000 with `{ expiresIn: '1h' }` and verified at time 2000. -/
theorem clockJwt_roundTripsAt :
    RoundTripsAt (clockJwt 1000 2000) "secretkey" [("userId", .num 1), ("role", .str "admin")]
      [("expiresIn", .str "1h")] := by
  intro token hs
  have ht : token = demoToken := by
    rw [clockJwt_sign_demo] at hs
    exact (Except.ok.inj hs).symm
  subst ht
  refine ⟨by decide, by decide,
    [("userId", .num 1), ("role", .str "admin"), ("iat", .num 1000), ("exp", .num 4600)],
    clockJwt_verify_demo, ?_, ?_⟩
  · intro key v h
    by_cases h1 : "userId" = key
    · subst h1
      have hv : v = .num 1 := by
        have : getProp [("userId", JVal.num 1), ("role", .str "admin")] "userId" =
            some (.num 1) := rfl
        rw [this] at h
        exact (Option.some.inj h).symm
      subst hv
      rfl
    · by_cases h2 : "role" = key
      · subst h2
        have hv : v = .str "admin" := by
          have : getProp [("userId", JVal.num 1), ("role", .str "admin")] "role" =
              some (.str "admin") := rfl
          rw [this] at h
          exact (Option.some.inj h).symm
        subst hv
        rfl
      · simp [getProp, h1, h2] at h
  · intro key h hiat hexp
    have h1 : ¬ "userId" = key := by
      intro e
      subst e
      simp [getProp] at h
    have h2 : ¬ "role" = key := by
      intro e
      subst e
      simp [getProp] at h
    simp [getProp, h1, h2, Ne.symm hiat, Ne.symm hexp]

/-- The principal of the scenario below, computed: the payload with `iat` 1000
and `exp` 4600. -/
theorem clockJwt_principal :
    ((authService none).authenticateToken (clockJwt 1000 2000)
        ⟨some ("Bearer " ++ demoToken), .undefined⟩).user =
      .obj [("userId", .num 1), ("role", .str "admin"), ("iat", .num 1000),
        ("exp", .num 4600)] ∧
      ((authService none).authenticateToken (clockJwt 1000 5000)
        ⟨some ("Bearer " ++ demoToken), .undefined⟩).responses = tokenInvalidResponse := by
  have hc : candidateToken (some ("Bearer " ++ demoToken)) = some demoToken :=
    candidateToken_bearer demoToken (by decide)
  constructor
  · rw [authenticateToken_of_verify_ok (authService none) (clockJwt 1000 2000)
      ⟨some ("Bearer " ++ demoToken), .undefined⟩ demoToken _ hc (by decide)
      clockJwt_verify_demo]
  · rw [authenticateToken_of_verify_error (authService none) (clockJwt 1000 5000)
      ⟨some ("Bearer " ++ demoToken), .undefined⟩ demoToken _ hc (by decide)
      clockJwt_verify_demo_expired]
    rfl

/-- C4, at the scenario `generateToken({ userId: 1, role: "admin" },
{ expiresIn: "1h" })` with the small library, signed at time 1000 and verified
at time 2000. -/
theorem generateToken_authenticateToken_roundtrip_witness :
    ∃ principal,
      ((authService none).authenticateToken (clockJwt 1000 2000)
        ⟨some ("Bearer " ++ demoToken), .undefined⟩).user = .obj principal ∧
      ExtendsPayload [("userId", .num 1), ("role", .str "admin")] principal ∧
      ((authService none).authenticateToken (clockJwt 1000 2000)
        ⟨some ("Bearer " ++ demoToken), .undefined⟩).trace =
        [.verifyCall demoToken (authService none).secretKey, .setUser (.obj principal),
          .next] :=
  generateToken_authenticateToken_roundtrip none (clockJwt 1000 2000)
    [("userId", .num 1), ("role", .str "admin")] (some [("expiresIn", .str "1h")])
    (.str "1h") demoToken .undefined (Or.inr rfl) clockJwt_roundTripsAt rfl

/-! ## The scheme word and the segments of the header -/

/-- C8, as stated, fails: on the header `Basic h.p.s`, whose first segment is
`Basic` and not `Bearer`, the token is verified and `next` is called. -/
theorem authenticateToken_basic_scheme_proceeds :
    (jsSplitSpace "Basic h.p.s")[0]? = some "Basic" ∧ "Basic" ≠ "Bearer" ∧
      ((authService none).authenticateToken demoJwt ⟨some "Basic h.p.s", .undefined⟩).trace =
        [.verifyCall "h.p.s" "secretkey", .setUser demoClaims, .next] ∧
      ((authService none).authenticateToken demoJwt
        ⟨some "Basic h.p.s", .undefined⟩).trace.any Event.isNext = true :=
  ⟨by decide, by decide, rfl, rfl⟩

/-- C8, amended: `next` is called only if the header has a non-empty second
space-delimited segment that verifies; the first segment is not inspected, so
two headers that differ only in their first word (`Basic`, `Token`, `Bearer`)
have the same outcome. -/
theorem authenticateToken_scheme_not_inspected (self : AuthService) (jwt : Jwt)
    (scheme1 scheme2 rest : String) (user : JVal)
    (h1 : ' ' ∉ scheme1.data) (h2 : ' ' ∉ scheme2.data) :
    self.authenticateToken jwt ⟨some (scheme1 ++ " " ++ rest), user⟩ =
        self.authenticateToken jwt ⟨some (scheme2 ++ " " ++ rest), user⟩ ∧
      (∀ req : Request, (self.authenticateToken jwt req).trace.any Event.isNext = true →
        ∃ token decoded, req.authorization ≠ none ∧
          candidateToken req.authorization = some token ∧ token ≠ "" ∧
          jwt.verify token self.secretKey = .ok decoded) := by
  constructor
  · have e1 := candidateToken_after_space scheme1 rest h1
    have e2 := candidateToken_after_space scheme2 rest h2
    simp only [AuthService.authenticateToken, e1, e2]
  · intro req hn
    cases hc : candidateToken req.authorization with
    | none =>
      rw [authenticateToken_of_no_token self jwt req (Or.inl hc)] at hn
      simp [Event.isNext] at hn
    | some t =>
      by_cases ht : t = ""
      · subst ht
        rw [authenticateToken_of_no_token self jwt req (Or.inr hc)] at hn
        simp [Event.isNext] at hn
      · cases hv : jwt.verify t self.secretKey with
        | error e =>
          rw [authenticateToken_of_verify_error self jwt req t e hc ht hv] at hn
          simp [Event.isNext] at hn
        | ok d =>
          refine ⟨t, d, ?_, rfl, ht, hv⟩
          intro hnone
          simp [hnone, candidateToken] at hc

/-- C8 amended, at the schemes `Basic` and `Bearer`. -/
theorem authenticateToken_scheme_not_inspected_witness :
    (authService none).authenticateToken demoJwt ⟨some ("Basic" ++ " " ++ "h.p.s"), .null⟩ =
      (authService none).authenticateToken demoJwt ⟨some ("Bearer" ++ " " ++ "h.p.s"), .null⟩ :=
  (authenticateToken_scheme_not_inspected (authService none) demoJwt "Basic" "Bearer" "h.p.s"
    .null (by decide) (by decide)).1

/-- C9, as stated, fails: split on runs of whitespace, the second segment of
`Bearer  h.p.s` (two spaces) and of `Bearer<tab>h.p.s` is `h.p.s`, but the
candidate token of the code is the empty string and `undefined`, and
`jwt.verify` is not called on either header. -/
theorem candidateToken_not_whitespace_segment :
    secondWhitespaceSegment (some "Bearer  h.p.s") = some "h.p.s" ∧
      candidateToken (some "Bearer  h.p.s") = some "" ∧
      secondWhitespaceSegment (some "Bearer\th.p.s") = some "h.p.s" ∧
      candidateToken (some "Bearer\th.p.s") = none ∧
      ((authService none).authenticateToken demoJwt
        ⟨some "Bearer  h.p.s", .undefined⟩).trace.any Event.isVerify = false ∧
      ((authService none).authenticateToken demoJwt
        ⟨some "Bearer\th.p.s", .undefined⟩).trace.any Event.isVerify = false :=
  ⟨by decide, by decide, by decide, by decide, rfl, rfl⟩

/-- C9, amended: the candidate token is the second segment of the header split
at every single space character. For a header whose whitespace is single spaces
(no tab, no two adjacent spaces) the token passed to `jwt.verify` is the second
whitespace-delimited segment, when that is non-empty; for headers `a b` and
`a b rest` with space-free `a` and `b` the candidate is `b`, so `Bearer T extra`
yields `T`. -/
theorem candidateToken_single_space (self : AuthService) (jwt : Jwt) (header : String)
    (user : JVal) (hs : singleSpaced header.data = true) :
    (self.authenticateToken jwt ⟨some header, user⟩).trace.filter Event.isVerify =
        (match secondWhitespaceSegment (some header) with
         | some t => if t = "" then [] else [.verifyCall t self.secretKey]
         | none => []) ∧
      (∀ a b rest : String, ' ' ∉ a.data → ' ' ∉ b.data →
        candidateToken (some (a ++ " " ++ b)) = some b ∧
        candidateToken (some (a ++ " " ++ (b ++ " " ++ rest))) = some b) ∧
      candidateToken (some "Bearer T extra") = some "T" := by
  refine ⟨?_, ?_, by decide⟩
  · rw [authenticateToken_verify_calls]
    by_cases he : header = ""
    · subst he
      rfl
    · have hseg : candidateToken (some header) = secondWhitespaceSegment (some header) := by
        simp only [candidateToken, he, if_false, secondWhitespaceSegment, jsSplitSpace,
          whitespaceSegments, (whitespaceSegmentsAux_of_singleSpaced header.data hs).1]
      simp only [hseg]
  · intro a b rest ha hb
    exact ⟨by rw [candidateToken_after_space a b ha, jsSplitSpace_head_of_not_mem b hb],
      by rw [candidateToken_after_space a _ ha, jsSplitSpace_head_append b rest hb]⟩

/-- C9 amended, at the header `Bearer h.p.s extra`. -/
theorem candidateToken_single_space_witness :
    ((authService none).authenticateToken demoJwt
        ⟨some "Bearer h.p.s extra", .undefined⟩).trace.filter Event.isVerify =
      [.verifyCall "h.p.s" "secretkey"] :=
  (candidateToken_single_space (authService none) demoJwt "Bearer h.p.s extra" .undefined
    (by decide)).1

/-! ## Responses do not depend on the failure -/

/-- C10: two runs in which a non-empty candidate token fails verification, with
whatever two errors, write the same status and body, the constant 403
`TOKEN_INVALID` response, in which the error message does not occur. Every
response of `authenticateToken` is that constant or the constant 401
`TOKEN_MISSING` response, whatever the header; every response of
`authorizeRoles` is the constant 403 `INSUFFICIENT_PERMISSIONS` response,
whatever the principal. -/
theorem rejection_responses_constant (self1 self2 : AuthService) (jwt1 jwt2 : Jwt)
    (req1 req2 : Request) (token1 token2 err1 err2 : String)
    (hc1 : candidateToken req1.authorization = some token1) (hne1 : token1 ≠ "")
    (hv1 : jwt1.verify token1 self1.secretKey = .error err1)
    (hc2 : candidateToken req2.authorization = some token2) (hne2 : token2 ≠ "")
    (hv2 : jwt2.verify token2 self2.secretKey = .error err2) :
    (self1.authenticateToken jwt1 req1).trace.filter Event.isResponse =
        (self2.authenticateToken jwt2 req2).trace.filter Event.isResponse ∧
      (self1.authenticateToken jwt1 req1).trace.filter Event.isResponse =
        [.status 403,
         .json (.obj [("success", .bool false), ("message", .str "Invalid token"),
                      ("code", .str "TOKEN_INVALID")])] ∧
      (∀ (self : AuthService) (jwt : Jwt) (req : Request),
        (self.authenticateToken jwt req).trace.filter Event.isResponse = [] ∨
        (self.authenticateToken jwt req).trace.filter Event.isResponse =
          [.status 401,
           .json (.obj [("success", .bool false),
                        ("message", .str "Access denied: No token provided"),
                        ("code", .str "TOKEN_MISSING")])] ∨
        (self.authenticateToken jwt req).trace.filter Event.isResponse =
          [.status 403,
           .json (.obj [("success", .bool false), ("message", .str "Invalid token"),
                        ("code", .str "TOKEN_INVALID")])]) ∧
      (∀ (self : AuthService) (roles : List String) (req : Request),
        (self.authorizeRoles roles req).trace.filter Event.isResponse = [] ∨
        (self.authorizeRoles roles req).trace.filter Event.isResponse =
          [.status 403,
           .json (.obj [("success", .bool false),
                        ("message", .str "Access denied: Insufficient permissions"),
                        ("code", .str "INSUFFICIENT_PERMISSIONS")])]) := by
  refine ⟨?_, ?_, ?_, ?_⟩
  · rw [authenticateToken_of_verify_error self1 jwt1 req1 token1 err1 hc1 hne1 hv1,
      authenticateToken_of_verify_error self2 jwt2 req2 token2 err2 hc2 hne2 hv2]
    simp [Event.isResponse]
  · rw [authenticateToken_of_verify_error self1 jwt1 req1 token1 err1 hc1 hne1 hv1]
    simp [Event.isResponse]
  · intro self jwt req
    cases hc : candidateToken req.authorization with
    | none =>
      rw [authenticateToken_of_no_token self jwt req (Or.inl hc)]
      simp [Event.isResponse]
    | some t =>
      by_cases ht : t = ""
      · subst ht
        rw [authenticateToken_of_no_token self jwt req (Or.inr hc)]
        simp [Event.isResponse]
      · cases hv : jwt.verify t self.secretKey with
        | error e =>
          rw [authenticateToken_of_verify_error self jwt req t e hc ht hv]
          simp [Event.isResponse]
        | ok d =>
          rw [authenticateToken_of_verify_ok self jwt req t d hc ht hv]
          simp [Event.isResponse]
  · intro self roles req
    by_cases hg : (!req.user.truthy || !rolesInclude roles (req.user.member "role")) = true
    · rw [authorizeRoles_of_guard self roles req hg]
      simp [Event.isResponse]
    · rw [authorizeRoles_of_not_guard self roles req hg]
      simp [Event.isResponse]

/-- C10, at an expired token against a malformed one. -/
theorem rejection_responses_constant_witness :
    ((authService none).authenticateToken demoJwt
        ⟨some "Bearer old", .undefined⟩).trace.filter Event.isResponse =
      ((AuthService.new ⟨"other", []⟩).authenticateToken demoJwt
        ⟨some "Token h.p.s", .null⟩).trace.filter Event.isResponse :=
  (rejection_responses_constant (authService none) (AuthService.new ⟨"other", []⟩)
    demoJwt demoJwt ⟨some "Bearer old", .undefined⟩ ⟨some "Token h.p.s", .null⟩
    "old" "h.p.s" "jwt expired" "jwt malformed"
    (by decide) (by decide) rfl (by decide) (by decide) rfl).1

/-! ## The secret of the exported service -/

/-- The three ways a run of `authenticateToken` can go, by the first matching
branch. -/
theorem authenticateToken_cases (self : AuthService) (jwt : Jwt) (req : Request) :
    ((candidateToken req.authorization = none ∨ candidateToken req.authorization = some "") ∧
        self.authenticateToken jwt req =
          { user := req.user
            trace := [.log .error "Access denied: No token provided" .undefined,
                      .status 401,
                      .json (.obj [("success", .bool false),
                                   ("message", .str "Access denied: No token provided"),
                                   ("code", .str "TOKEN_MISSING")])] }) ∨
      (∃ token errMessage, candidateToken req.authorization = some token ∧ token ≠ "" ∧
        jwt.verify token self.secretKey = .error errMessage ∧
        self.authenticateToken jwt req =
          { user := req.user
            trace := [.verifyCall token self.secretKey,
                      .log .error "Invalid token"
                        (.obj [("metadata", .obj [("error", .str errMessage)])]),
                      .status 403,
                      .json (.obj [("success", .bool false),
                                   ("message", .str "Invalid token"),
                                   ("code", .str "TOKEN_INVALID")])] }) ∨
      (∃ token decoded, candidateToken req.authorization = some token ∧ token ≠ "" ∧
        jwt.verify token self.secretKey = .ok decoded ∧
        self.authenticateToken jwt req =
          { user := decoded
            trace := [.verifyCall token self.secretKey, .setUser decoded, .next] }) := by
  cases hc : candidateToken req.authorization with
  | none => exact Or.inl ⟨Or.inl rfl, authenticateToken_of_no_token self jwt req (Or.inl hc)⟩
  | some t =>
    by_cases ht : t = ""
    · subst ht
      exact Or.inl ⟨Or.inr rfl, authenticateToken_of_no_token self jwt req (Or.inr hc)⟩
    · cases hv : jwt.verify t self.secretKey with
      | error e =>
        exact Or.inr (Or.inl ⟨t, e, rfl, ht, hv,
          authenticateToken_of_verify_error self jwt req t e hc ht hv⟩)
      | ok d =>
        exact Or.inr (Or.inr ⟨t, d, rfl, ht, hv,
          authenticateToken_of_verify_ok self jwt req t d hc ht hv⟩)

/-- C11: the secret of the exported service is the value of `JWT_SECRET_KEY`
when that is a non-empty string and `'secretkey'` when it is unset or empty;
`generateToken` hands this secret to its one `jwt.sign` call and
`authenticateToken` hands the same secret to its `jwt.verify` call. -/
theorem authService_secret (jwt : Jwt) (payload : JVal) (options : Option Props)
    (req : Request) :
    (∀ s : String, s ≠ "" → (authService (some s)).secretKey = s) ∧
      (authService none).secretKey = "secretkey" ∧
      (authService (some "")).secretKey = "secretkey" ∧
      (∀ env, ((authService env).generateToken jwt payload options).trace.filter Event.isSign =
        [.signCall payload (authService env).secretKey
          (spread2 (authService env).tokenOptions (options.getD []))]) ∧
      (∀ env, ((authService env).authenticateToken jwt req).trace.filter Event.isVerify =
        match candidateToken req.authorization with
        | some t => if t = "" then [] else [.verifyCall t (authService env).secretKey]
        | none => []) := by
  refine ⟨?_, rfl, rfl, ?_, fun env => authenticateToken_verify_calls _ jwt req⟩
  · intro s hs
    simp [authService, AuthService.new, authConfig, hs]
  · intro env
    cases hs : jwt.sign payload (authService env).secretKey
        (spread2 (authService env).tokenOptions (options.getD [])) with
    | ok token =>
      simp [generateToken_of_sign_ok (authService env) jwt payload options token hs,
        Event.isSign]
    | error cause =>
      simp [generateToken_of_sign_error (authService env) jwt payload options cause hs,
        Event.isSign]

/-- C11, at `JWT_SECRET_KEY=s3cret`: signing and verification both use it. -/
theorem authService_secret_witness :
    (authService (some "s3cret")).secretKey = "s3cret" ∧
      ((authService (some "s3cret")).generateToken demoJwt (.obj []) none).trace.filter
        Event.isSign = [.signCall (.obj []) "s3cret" [("expiresIn", .str "1h")]] ∧
      ((authService (some "s3cret")).authenticateToken demoJwt
        ⟨some "Bearer h.p.s", .undefined⟩).trace.filter Event.isVerify =
        [.verifyCall "h.p.s" "s3cret"] :=
  ⟨(authService_secret demoJwt (.obj []) none ⟨some "Bearer h.p.s", .undefined⟩).1
      "s3cret" (by decide),
   (authService_secret demoJwt (.obj []) none
      ⟨some "Bearer h.p.s", .undefined⟩).2.2.2.1 (some "s3cret"),
   (authService_secret demoJwt (.obj []) none
      ⟨some "Bearer h.p.s", .undefined⟩).2.2.2.2 (some "s3cret")⟩

/-! ## The principal and the outcome of a request -/

/-- C13: for a request that enters `authenticateToken` without a principal, the
assignment `req.user = decoded` happens exactly when the verification of the
extracted token succeeds, and then `req.user` is the decoded claims; a principal
present afterwards comes from a successful verification; on the `TOKEN_MISSING`
and `TOKEN_INVALID` paths `req.user` is left as it was. -/
theorem authenticateToken_principal (self : AuthService) (jwt : Jwt) (req : Request)
    (hreq : req.user = .undefined) :
    ((self.authenticateToken jwt req).trace.any Event.isSetUser = true ↔
        ∃ token decoded, candidateToken req.authorization = some token ∧ token ≠ "" ∧
          jwt.verify token self.secretKey = .ok decoded) ∧
      (∀ token decoded, candidateToken req.authorization = some token → token ≠ "" →
        jwt.verify token self.secretKey = .ok decoded →
        (self.authenticateToken jwt req).user = decoded ∧
          Event.setUser decoded ∈ (self.authenticateToken jwt req).trace) ∧
      ((self.authenticateToken jwt req).user ≠ .undefined →
        ∃ token decoded, candidateToken req.authorization = some token ∧ token ≠ "" ∧
          jwt.verify token self.secretKey = .ok decoded) ∧
      ((self.authenticateToken jwt req).responses = tokenMissingResponse ∨
          (self.authenticateToken jwt req).responses = tokenInvalidResponse →
        (self.authenticateToken jwt req).user = req.user ∧
          (self.authenticateToken jwt req).user = .undefined ∧
          (self.authenticateToken jwt req).trace.any Event.isSetUser = false) := by
  rcases authenticateToken_cases self jwt req with
    ⟨hc, ho⟩ | ⟨t, e, hc, ht, hv, ho⟩ | ⟨t, d, hc, ht, hv, ho⟩
  · refine ⟨?_, ?_, ?_, ?_⟩
    · rw [ho]
      constructor
      · intro h
        simp [Event.isSetUser] at h
      · rintro ⟨t, d, hc2, ht, -⟩
        rcases hc with hc | hc
        · rw [hc] at hc2
          cases hc2
        · rw [hc] at hc2
          exact absurd (Option.some.inj hc2).symm ht
    · intro t d hc2 ht _
      rcases hc with hc | hc
      · rw [hc] at hc2
        cases hc2
      · rw [hc] at hc2
        exact absurd (Option.some.inj hc2).symm ht
    · rw [ho]
      intro h
      exact absurd hreq h
    · rw [ho]
      intro _
      exact ⟨rfl, hreq, by simp [Event.isSetUser]⟩
  · have hno : ¬ ∃ token decoded, candidateToken req.authorization = some token ∧
        token ≠ "" ∧ jwt.verify token self.secretKey = .ok decoded := by
      rintro ⟨t2, d, hc2, -, hv2⟩
      rw [hc] at hc2
      cases Option.some.inj hc2
      rw [hv] at hv2
      cases hv2
    refine ⟨?_, ?_, ?_, ?_⟩
    · rw [ho]
      constructor
      · intro h
        simp [Event.isSetUser] at h
      · intro h
        exact absurd h hno
    · intro t2 d hc2 ht2 hv2
      exact absurd ⟨t2, d, hc2, ht2, hv2⟩ hno
    · rw [ho]
      intro h
      exact absurd hreq h
    · rw [ho]
      intro _
      exact ⟨rfl, hreq, by simp [Event.isSetUser]⟩
  · refine ⟨?_, ?_, ?_, ?_⟩
    · rw [ho]
      exact ⟨fun _ => ⟨t, d, hc, ht, hv⟩, fun _ => by simp [Event.isSetUser]⟩
    · intro t2 d2 hc2 _ hv2
      rw [hc] at hc2
      cases Option.some.inj hc2
      rw [hv] at hv2
      cases hv2
      rw [ho]
      exact ⟨rfl, by simp⟩
    · intro _
      exact ⟨t, d, hc, ht, hv⟩
    · rw [ho]
      intro h
      simp [Outcome.responses, Event.isResponse, tokenMissingResponse,
        tokenInvalidResponse] at h

/-- C13, at a verifying header and at a request without header. -/
theorem authenticateToken_principal_witness :
    ((authService none).authenticateToken demoJwt
        ⟨some "Bearer h.p.s", .undefined⟩).trace.any Event.isSetUser = true ∧
      ((authService none).authenticateToken demoJwt ⟨none, .undefined⟩).user = .undefined :=
  ⟨((authenticateToken_principal (authService none) demoJwt
      ⟨some "Bearer h.p.s", .undefined⟩ rfl).1).mpr
      ⟨"h.p.s", demoClaims, by decide, by decide, rfl⟩,
   ((authenticateToken_principal (authService none) demoJwt ⟨none, .undefined⟩ rfl).2.2.2
      (Or.inl rfl)).2.1⟩

/-- C14: a run of `authenticateToken` ends in exactly one of three outcomes,
decided by the first matching branch: the 401 `TOKEN_MISSING` response alone
(no candidate token), the 403 `TOKEN_INVALID` response alone (verification
fails), or one call of `next` alone (verification succeeds). It never writes a
response and calls `next`, never sends two responses and never calls `next`
twice. -/
theorem authenticateToken_single_outcome (self : AuthService) (jwt : Jwt) (req : Request) :
    (((self.authenticateToken jwt req).responses = tokenMissingResponse ∧
          (self.authenticateToken jwt req).nextCalls = []) ∨
        ((self.authenticateToken jwt req).responses = tokenInvalidResponse ∧
          (self.authenticateToken jwt req).nextCalls = []) ∨
        ((self.authenticateToken jwt req).responses = [] ∧
          (self.authenticateToken jwt req).nextCalls = [.next])) ∧
      ¬ (((self.authenticateToken jwt req).responses = tokenMissingResponse ∧
            (self.authenticateToken jwt req).nextCalls = []) ∧
          ((self.authenticateToken jwt req).responses = tokenInvalidResponse ∧
            (self.authenticateToken jwt req).nextCalls = [])) ∧
      ¬ (((self.authenticateToken jwt req).responses = tokenMissingResponse ∧
            (self.authenticateToken jwt req).nextCalls = []) ∧
          ((self.authenticateToken jwt req).responses = [] ∧
            (self.authenticateToken jwt req).nextCalls = [.next])) ∧
      ¬ (((self.authenticateToken jwt req).responses = tokenInvalidResponse ∧
            (self.authenticateToken jwt req).nextCalls = []) ∧
          ((self.authenticateToken jwt req).responses = [] ∧
            (self.authenticateToken jwt req).nextCalls = [.next])) ∧
      ((self.authenticateToken jwt req).responses = tokenMissingResponse ↔
        (candidateToken req.authorization = none ∨
          candidateToken req.authorization = some "")) ∧
      ((self.authenticateToken jwt req).responses = tokenInvalidResponse ↔
        ∃ token errMessage, candidateToken req.authorization = some token ∧ token ≠ "" ∧
          jwt.verify token self.secretKey = .error errMessage) ∧
      ((self.authenticateToken jwt req).nextCalls = [.next] ↔
        ∃ token decoded, candidateToken req.authorization = some token ∧ token ≠ "" ∧
          jwt.verify token self.secretKey = .ok decoded) ∧
      ¬ ((self.authenticateToken jwt req).responses ≠ [] ∧
        (self.authenticateToken jwt req).nextCalls ≠ []) ∧
      ((self.authenticateToken jwt req).trace.filter Event.isJson).length ≤ 1 ∧
      (self.authenticateToken jwt req).nextCalls.length ≤ 1 := by
  have hne1 : tokenMissingResponse ≠ tokenInvalidResponse := by
    simp [tokenMissingResponse, tokenInvalidResponse]
  have hne2 : tokenMissingResponse ≠ [] := by simp [tokenMissingResponse]
  have hne3 : tokenInvalidResponse ≠ [] := by simp [tokenInvalidResponse]
  have hx1 : ¬ (((self.authenticateToken jwt req).responses = tokenMissingResponse ∧
        (self.authenticateToken jwt req).nextCalls = []) ∧
      ((self.authenticateToken jwt req).responses = tokenInvalidResponse ∧
        (self.authenticateToken jwt req).nextCalls = [])) :=
    fun h => hne1 (h.1.1.symm.trans h.2.1)
  have hx2 : ¬ (((self.authenticateToken jwt req).responses = tokenMissingResponse ∧
        (self.authenticateToken jwt req).nextCalls = []) ∧
      ((self.authenticateToken jwt req).responses = [] ∧
        (self.authenticateToken jwt req).nextCalls = [.next])) :=
    fun h => hne2 (h.1.1.symm.trans h.2.1)
  have hx3 : ¬ (((self.authenticateToken jwt req).responses = tokenInvalidResponse ∧
        (self.authenticateToken jwt req).nextCalls = []) ∧
      ((self.authenticateToken jwt req).responses = [] ∧
        (self.authenticateToken jwt req).nextCalls = [.next])) :=
    fun h => hne3 (h.1.1.symm.trans h.2.1)
  rcases authenticateToken_cases self jwt req with
    ⟨hc, ho⟩ | ⟨t, e, hc, ht, hv, ho⟩ | ⟨t, d, hc, ht, hv, ho⟩
  · have hr : (self.authenticateToken jwt req).responses = tokenMissingResponse := by
      rw [ho]
      simp [Outcome.responses, Event.isResponse, tokenMissingResponse]
    have hn : (self.authenticateToken jwt req).nextCalls = [] := by
      rw [ho]
      simp [Outcome.nextCalls, Event.isNext]
    have hj : ((self.authenticateToken jwt req).trace.filter Event.isJson).length ≤ 1 := by
      rw [ho]
      simp [Event.isJson]
    have hnot : ∀ token, candidateToken req.authorization = some token → token ≠ "" →
        False := by
      intro t hc2 ht
      rcases hc with hc | hc
      · rw [hc] at hc2
        cases hc2
      · rw [hc] at hc2
        exact ht (Option.some.inj hc2).symm
    refine ⟨Or.inl ⟨hr, hn⟩, hx1, hx2, hx3, ⟨fun _ => hc, fun _ => hr⟩, ?_, ?_, ?_, hj, ?_⟩
    · rw [hr]
      exact ⟨fun h => absurd h hne1, fun ⟨t, _, hc2, ht, _⟩ => (hnot t hc2 ht).elim⟩
    · rw [hn]
      exact ⟨fun h => by simp at h, fun ⟨t, _, hc2, ht, _⟩ => (hnot t hc2 ht).elim⟩
    · rw [hn]
      simp
    · rw [hn]
      simp
  · have hr : (self.authenticateToken jwt req).responses = tokenInvalidResponse := by
      rw [ho]
      simp [Outcome.responses, Event.isResponse, tokenInvalidResponse]
    have hn : (self.authenticateToken jwt req).nextCalls = [] := by
      rw [ho]
      simp [Outcome.nextCalls, Event.isNext]
    have hj : ((self.authenticateToken jwt req).trace.filter Event.isJson).length ≤ 1 := by
      rw [ho]
      simp [Event.isJson]
    refine ⟨Or.inr (Or.inl ⟨hr, hn⟩), hx1, hx2, hx3, ?_, ⟨fun _ => ⟨t, e, hc, ht, hv⟩,
      fun _ => hr⟩, ?_, ?_, hj, ?_⟩
    · rw [hr]
      constructor
      · intro h
        exact absurd h.symm hne1
      · rintro (h | h)
        · rw [hc] at h
          cases h
        · rw [hc] at h
          exact absurd (Option.some.inj h) ht
    · rw [hn]
      constructor
      · intro h
        simp at h
      · rintro ⟨t2, d, hc2, -, hv2⟩
        rw [hc] at hc2
        cases Option.some.inj hc2
        rw [hv] at hv2
        cases hv2
    · rw [hn]
      simp
    · rw [hn]
      simp
  · have hr : (self.authenticateToken jwt req).responses = [] := by
      rw [ho]
      simp [Outcome.responses, Event.isResponse]
    have hn : (self.authenticateToken jwt req).nextCalls = [.next] := by
      rw [ho]
      simp [Outcome.nextCalls, Event.isNext]
    have hj : ((self.authenticateToken jwt req).trace.filter Event.isJson).length ≤ 1 := by
      rw [ho]
      simp [Event.isJson]
    refine ⟨Or.inr (Or.inr ⟨hr, hn⟩), hx1, hx2, hx3, ?_, ?_,
      ⟨fun _ => ⟨t, d, hc, ht, hv⟩, fun _ => hn⟩, ?_, hj, ?_⟩
    · rw [hr]
      constructor
      · intro h
        exact absurd h.symm hne2
      · rintro (h | h)
        · rw [hc] at h
          cases h
        · rw [hc] at h
          exact absurd (Option.some.inj h) ht
    · rw [hr]
      constructor
      · intro h
        exact absurd h.symm hne3
      · rintro ⟨t2, e, hc2, -, hv2⟩
        rw [hc] at hc2
        cases Option.some.inj hc2
        rw [hv] at hv2
        cases hv2
    · rw [hr]
      simp
    · rw [hn]
      simp

/-! ## Entity services: records that do not exist -/

theorem EntityService.getById_of_not_found {σ ρ : Type} (errorLabel failed : String)
    (orm : Orm σ ρ) (store : σ) (id : Int) (h : orm.findByPk store id = .ok none) :
    EntityService.getById errorLabel failed orm store id =
      { result := .ok none, store := store, trace := [.findByPk id] } := by
  simp only [EntityService.getById, h]

theorem EntityService.update_of_not_found {σ ρ : Type} (errorLabel notFound failed : String)
    (orm : Orm σ ρ) (store : σ) (id : Int) (data : Props)
    (h : orm.findByPk store id = .ok none) :
    EntityService.update errorLabel notFound failed orm store id data =
      { result := .error { message := failed }
        store := store
        trace := [.findByPk id, .consoleError errorLabel notFound] } := by
  simp only [EntityService.update, h]

theorem EntityService.delete_of_not_found {σ ρ : Type} (errorLabel notFound failed : String)
    (orm : Orm σ ρ) (store : σ) (id : Int) (h : orm.findByPk store id = .ok none) :
    EntityService.delete errorLabel notFound failed orm store id =
      { result := .error { message := failed }
        store := store
        trace := [.findByPk id, .consoleError errorLabel notFound] } := by
  simp only [EntityService.delete, h]

theorem EntityService.update_of_find_error {σ ρ : Type} (errorLabel notFound failed : String)
    (orm : Orm σ ρ) (store : σ) (id : Int) (data : Props) (cause : String)
    (h : orm.findByPk store id = .error cause) :
    EntityService.update errorLabel notFound failed orm store id data =
      { result := .error { message := failed }
        store := store
        trace := [.findByPk id, .consoleError errorLabel cause] } := by
  simp only [EntityService.update, h]

theorem EntityService.delete_of_find_error {σ ρ : Type} (errorLabel notFound failed : String)
    (orm : Orm σ ρ) (store : σ) (id : Int) (cause : String)
    (h : orm.findByPk store id = .error cause) :
    EntityService.delete errorLabel notFound failed orm store id =
      { result := .error { message := failed }
        store := store
        trace := [.findByPk id, .consoleError errorLabel cause] } := by
  simp only [EntityService.delete, h]

theorem EntityService.update_no_write_of_not_found {σ ρ : Type}
    (errorLabel notFound failed : String) (orm : Orm σ ρ) (store : σ) (id : Int)
    (data : Props) (h : orm.findByPk store id = .ok none) :
    (EntityService.update errorLabel notFound failed orm store id data).trace.any
      OrmEvent.isWrite = false := by
  rw [EntityService.update_of_not_found _ _ _ orm store id data h]
  simp [OrmEvent.isWrite]

theorem EntityService.delete_no_write_of_not_found {σ ρ : Type}
    (errorLabel notFound failed : String) (orm : Orm σ ρ) (store : σ) (id : Int)
    (h : orm.findByPk store id = .ok none) :
    (EntityService.delete errorLabel notFound failed orm store id).trace.any
      OrmEvent.isWrite = false := by
  rw [EntityService.delete_of_not_found _ _ _ orm store id h]
  simp [OrmEvent.isWrite]

/-- Every error of an update method is the one generic error. -/
theorem EntityService.update_error_message {σ ρ : Type} (errorLabel notFound failed : String)
    (orm : Orm σ ρ) (store : σ) (id : Int) (data : Props) (e : JsError)
    (h : (EntityService.update errorLabel notFound failed orm store id data).result =
      .error e) :
    e.message = failed := by
  unfold EntityService.update at h
  split at h
  · split at h
    · simp only [Except.error.injEq] at h
      rw [← h]
    · split at h
      · simp at h
      · simp only [Except.error.injEq] at h
        rw [← h]
  · simp only [Except.error.injEq] at h
    rw [← h]

/-- Every error of a delete method is the one generic error. -/
theorem EntityService.delete_error_message {σ ρ : Type} (errorLabel notFound failed : String)
    (orm : Orm σ ρ) (store : σ) (id : Int) (e : JsError)
    (h : (EntityService.delete errorLabel notFound failed orm store id).result = .error e) :
    e.message = failed := by
  unfold EntityService.delete at h
  split at h
  · split at h
    · simp only [Except.error.injEq] at h
      rw [← h]
    · split at h
      · simp at h
      · simp only [Except.error.injEq] at h
        rw [← h]
  · simp only [Except.error.injEq] at h
    rw [← h]

/-- C12: for each entity service (user, income, expense, balance) over an ORM
with a store, and for an id that `findByPk` does not find: the update and the
delete method fail with `Error('Failed to update <entity>')` and
`Error('Failed to delete <entity>')`, perform no `update` or `destroy` and leave
the store unchanged, and the get-by-id method returns `null` without failing.
The message is the one every failure of the method carries, a storage failure
included. -/
theorem entityServices_not_found {σ ρ : Type} (orm : Orm σ ρ) (store : σ) (id : Int)
    (data : Props) (h : orm.findByPk store id = .ok none) :
    (UserService.updateUser orm store id data =
        { result := .error { message := "Failed to update user" }
          store := store
          trace := [.findByPk id, .consoleError "Error updating user:" "User not found"] }) ∧
      (UserService.deleteUser orm store id =
        { result := .error { message := "Failed to delete user" }
          store := store
          trace := [.findByPk id, .consoleError "Error deleting user:" "User not found"] }) ∧
      (UserService.getUserById orm store id =
        { result := .ok none, store := store, trace := [.findByPk id] }) ∧
      ((UserService.updateUser orm store id data).trace.any OrmEvent.isWrite = false) ∧
      ((UserService.deleteUser orm store id).trace.any OrmEvent.isWrite = false) ∧
      (∀ (orm2 : Orm σ ρ) (store2 : σ) (id2 : Int) (data2 : Props) (e : JsError),
        (UserService.updateUser orm2 store2 id2 data2).result = .error e →
        e.message = "Failed to update user") ∧
      (∀ (orm2 : Orm σ ρ) (store2 : σ) (id2 : Int) (e : JsError),
        (UserService.deleteUser orm2 store2 id2).result = .error e →
        e.message = "Failed to delete user") ∧
      (IncomeService.updateIncome orm store id data =
        { result := .error { message := "Failed to update income" }
          store := store
          trace := [.findByPk id, .consoleError "Error updating income:" "Income not found"] }) ∧
      (IncomeService.deleteIncome orm store id =
        { result := .error { message := "Failed to delete income" }
          store := store
          trace := [.findByPk id, .consoleError "Error deleting income:" "Income not found"] }) ∧
      (IncomeService.getIncomeById orm store id =
        { result := .ok none, store := store, trace := [.findByPk id] }) ∧
      ((IncomeService.updateIncome orm store id data).trace.any OrmEvent.isWrite = false) ∧
      ((IncomeService.deleteIncome orm store id).trace.any OrmEvent.isWrite = false) ∧
      (∀ (orm2 : Orm σ ρ) (store2 : σ) (id2 : Int) (data2 : Props) (e : JsError),
        (IncomeService.updateIncome orm2 store2 id2 data2).result = .error e →
        e.message = "Failed to update income") ∧
      (∀ (orm2 : Orm σ ρ) (store2 : σ) (id2 : Int) (e : JsError),
        (IncomeService.deleteIncome orm2 store2 id2).result = .error e →
        e.message = "Failed to delete income") ∧
      (ExpenseService.updateExpense orm store id data =
        { result := .error { message := "Failed to update expense" }
          store := store
          trace := [.findByPk id, .consoleError "Error updating expense:" "Expense not found"] }) ∧
      (ExpenseService.deleteExpense orm store id =
        { result := .error { message := "Failed to delete expense" }
          store := store
          trace := [.findByPk id, .consoleError "Error deleting expense:" "Expense not found"] }) ∧
      (ExpenseService.getExpenseById orm store id =
        { result := .ok none, store := store, trace := [.findByPk id] }) ∧
      ((ExpenseService.updateExpense orm store id data).trace.any OrmEvent.isWrite = false) ∧
      ((ExpenseService.deleteExpense orm store id).trace.any OrmEvent.isWrite = false) ∧
      (∀ (orm2 : Orm σ ρ) (store2 : σ) (id2 : Int) (data2 : Props) (e : JsError),
        (ExpenseService.updateExpense orm2 store2 id2 data2).result = .error e →
        e.message = "Failed to update expense") ∧
      (∀ (orm2 : Orm σ ρ) (store2 : σ) (id2 : Int) (e : JsError),
        (ExpenseService.deleteExpense orm2 store2 id2).result = .error e →
        e.message = "Failed to delete expense") ∧
      (BalanceService.updateBalance orm store id data =
        { result := .error { message := "Failed to update balance" }
          store := store
          trace := [.findByPk id, .consoleError "Error updating balance:" "Balance not found"] }) ∧
      (BalanceService.deleteBalance orm store id =
        { result := .error { message := "Failed to delete balance" }
          store := store
          trace := [.findByPk id, .consoleError "Error deleting balance:" "Balance not found"] }) ∧
      (BalanceService.getBalanceById orm store id =
        { result := .ok none, store := store, trace := [.findByPk id] }) ∧
      ((BalanceService.updateBalance orm store id data).trace.any OrmEvent.isWrite = false) ∧
      ((BalanceService.deleteBalance orm store id).trace.any OrmEvent.isWrite = false) ∧
      (∀ (orm2 : Orm σ ρ) (store2 : σ) (id2 : Int) (data2 : Props) (e : JsError),
        (BalanceService.updateBalance orm2 store2 id2 data2).result = .error e →
        e.message = "Failed to update balance") ∧
      (∀ (orm2 : Orm σ ρ) (store2 : σ) (id2 : Int) (e : JsError),
        (BalanceService.deleteBalance orm2 store2 id2).result = .error e →
        e.message = "Failed to delete balance") :=
  ⟨EntityService.update_of_not_found _ _ _ orm store id data h,
    EntityService.delete_of_not_found _ _ _ orm store id h,
    EntityService.getById_of_not_found _ _ orm store id h,
    EntityService.update_no_write_of_not_found _ _ _ orm store id data h,
    EntityService.delete_no_write_of_not_found _ _ _ orm store id h,
    fun orm2 store2 id2 data2 e he =>
      EntityService.update_error_message _ _ _ orm2 store2 id2 data2 e he,
    fun orm2 store2 id2 e he =>
      EntityService.delete_error_message _ _ _ orm2 store2 id2 e he,
    EntityService.update_of_not_found _ _ _ orm store id data h,
    EntityService.delete_of_not_found _ _ _ orm store id h,
    EntityService.getById_of_not_found _ _ orm store id h,
    EntityService.update_no_write_of_not_found _ _ _ orm store id data h,
    EntityService.delete_no_write_of_not_found _ _ _ orm store id h,
    fun orm2 store2 id2 data2 e he =>
      EntityService.update_error_message _ _ _ orm2 store2 id2 data2 e he,
    fun orm2 store2 id2 e he =>
      EntityService.delete_error_message _ _ _ orm2 store2 id2 e he,
    EntityService.update_of_not_found _ _ _ orm store id data h,
    EntityService.delete_of_not_found _ _ _ orm store id h,
    EntityService.getById_of_not_found _ _ orm store id h,
    EntityService.update_no_write_of_not_found _ _ _ orm store id data h,
    EntityService.delete_no_write_of_not_found _ _ _ orm store id h,
    fun orm2 store2 id2 data2 e he =>
      EntityService.update_error_message _ _ _ orm2 store2 id2 data2 e he,
    fun orm2 store2 id2 e he =>
      EntityService.delete_error_message _ _ _ orm2 store2 id2 e he,
    EntityService.update_of_not_found _ _ _ orm store id data h,
    EntityService.delete_of_not_found _ _ _ orm store id h,
    EntityService.getById_of_not_found _ _ orm store id h,
    EntityService.update_no_write_of_not_found _ _ _ orm store id data h,
    EntityService.delete_no_write_of_not_found _ _ _ orm store id h,
    fun orm2 store2 id2 data2 e he =>
      EntityService.update_error_message _ _ _ orm2 store2 id2 data2 e he,
    fun orm2 store2 id2 e he =>
      EntityService.delete_error_message _ _ _ orm2 store2 id2 e he⟩

/-- C12, at the keyed store with the one user of key 1 and the id 2. -/
theorem entityServices_not_found_witness :
    UserService.updateUser keyedOrm demoStore 2 [("name", .str "Eva")] =
        { result := .error { message := "Failed to update user" }
          store := demoStore
          trace := [.findByPk 2, .consoleError "Error updating user:" "User not found"] } ∧
      UserService.deleteUser keyedOrm demoStore 2 =
        { result := .error { message := "Failed to delete user" }
          store := demoStore
          trace := [.findByPk 2, .consoleError "Error deleting user:" "User not found"] } ∧
      UserService.getUserById keyedOrm demoStore 2 =
        { result := .ok none, store := demoStore, trace := [.findByPk 2] } :=
  ⟨(entityServices_not_found keyedOrm demoStore 2 [("name", .str "Eva")] rfl).1,
   (entityServices_not_found keyedOrm demoStore 2 [("name", .str "Eva")] rfl).2.1,
   (entityServices_not_found keyedOrm demoStore 2 [("name", .str "Eva")] rfl).2.2.1⟩

end AuthMiddleware
